import Mathlib

/-!
Shallow embedding of the Ursalink payload decoders
(`AM100.js`, `EM500-SMT.js`, `AM100-node-red.js`, and the unnamed
EM500-LGT decoder file) together with proofs about the claims of the
specification.

Modelling conventions:

* A JavaScript byte array is a `List ℕ` whose elements are byte values
  (`< 256`); indexing past the end (`bytes[i]` with `i ≥ length`) yields
  JavaScript `undefined`, modelled as `none` from `List.getElem?`.
* A JavaScript value stored in a decoded field is a `JSV`: `undef`
  (JavaScript `undefined`), a number (modelled exactly in `ℚ`; the
  source's floating-point divisions by 10, 2 and 100 are modelled as
  exact rational division), or a string (a `List Char`).
* Each decoder's result object is a structure whose fields are `Option`s
  (`none` = the property was never assigned).  `Error` is a plain `Bool`
  because the source assigns `decoded.Error = false` before the loop.
* Each `for (var i = 0; i < bytes.length;) { ... }` loop is split into a
  non-recursive `step` function (one loop body: either `cont` with the
  new cursor and result, or `stop` for `break`) and the generic iterator
  `runLoop`, which re-checks `i < bytes.length` before every iteration
  exactly as the source's loop condition does.  `runLoop` carries a fuel
  argument instantiated at `bytes.length`; every `cont` strictly
  increases the cursor by at least 2, so this fuel is pure slack —
  `runLoop_fuel` proves the result does not depend on it.
-/

/-- JavaScript values that the decoders store into result fields. -/
inductive JSV where
  | undefined : JSV
  | num : ℚ → JSV
  | str : List Char → JSV
deriving DecidableEq

/-- Read `bytes[i]` as a JavaScript value: the byte as a number, or
`undefined` past the end. -/
def jread (bytes : List ℕ) (i : ℕ) : JSV :=
  match bytes[i]? with
  | some v => .num v
  | none => .undefined

/-- JavaScript `v > n` for a decoded field value: comparisons against
`undefined` are false. -/
def jsvGt (v : JSV) (n : ℚ) : Bool :=
  match v with
  | .num q => n < q
  | _ => false

/-- JavaScript `v / 2` for a decoded field value; `undefined / 2` is
`NaN`, modelled as `undef`. -/
def jsvHalf (v : JSV) : JSV :=
  match v with
  | .num q => .num (q / 2)
  | _ => .undefined

/-- JavaScript `bytes.slice(a, b)` (`0 ≤ a ≤ b`): the elements from
position `a` up to (excluding) `b`, clamped to the array's end. -/
def jsSlice (bytes : List ℕ) (a b : ℕ) : List ℕ :=
  (bytes.drop a).take (b - a)

/-- Function `readUInt16LE` from the sources: `((bytes[1] << 8) + bytes[0]) & 0xffff`.
A missing element (JavaScript `undefined`) contributes 0, matching the
JavaScript bitwise coercions on byte-valued arrays. -/
def readUInt16LE (bytes : List ℕ) : ℕ :=
  ((bytes.getD 1 0) * 256 + bytes.getD 0 0) % 65536

/-- Function `readInt16LE` from the sources: two's-complement reinterpretation of
the unsigned little-endian value. -/
def readInt16LE (bytes : List ℕ) : ℤ :=
  let ref := readUInt16LE bytes
  if ref > 0x7fff then (ref : ℤ) - 0x10000 else (ref : ℤ)

/-- Function `readUInt16BE` from `AM100.js`: `(bytes[0] << 8) + bytes[1]` (no
mask).  Missing elements are modelled as 0. -/
def readUInt16BE (bytes : List ℕ) : ℕ :=
  bytes.getD 0 0 * 256 + bytes.getD 1 0

/-- Function `bcd2ToDecimal` from `AM100.js`. -/
def bcd2ToDecimal (value : ℕ) : ℕ :=
  let result := value &&& 0xF
  if result > 9 ∨ value ≥ 0xA0 then 0
  else result + 10 * (value >>> 4)

/-- Function `bcd22ToVersion` from `AM100.js` (the `/ 100` is floating point in
the source, exact here). -/
def bcd22ToVersion (value : ℕ) : ℚ :=
  (bcd2ToDecimal (value >>> 8) : ℚ) + (bcd2ToDecimal (value &&& 0xFF) : ℚ) / 100

/-- Function `readVersion` from `AM100.js`. -/
def readVersion (bytes : List ℕ) : ℚ :=
  bcd22ToVersion (readUInt16BE bytes)

/-- Function `encodeHex` from `AM100.js`: `("0" + byte.toString(16)).substr(-2)`,
i.e. the last two characters of the string `"0"` followed by the
lowercase hexadecimal rendering. -/
def encodeHex (byte : ℕ) : List Char :=
  let l := '0' :: Nat.toDigits 16 byte
  l.drop (l.length - 2)

/-- Function `readHexBytes` from `AM100.js`: concatenate `"-" + encodeHex b` for
each byte, then drop the leading hyphen (`substr(1)`). -/
def readHexBytes (bytes : List ℕ) : List Char :=
  (bytes.foldl (fun r b => r ++ '-' :: encodeHex b) []).drop 1

/-- Outcome of one body of a decoding `for` loop: `cont` proceeds to the
next iteration with the new cursor and result; `stop` is a `break`,
keeping the result accumulated so far. -/
inductive StepRes (α : Type) where
  | cont (i : ℕ) (decoded : α) : StepRes α
  | stop (decoded : α) : StepRes α
deriving DecidableEq

/-- Loop `for (var i = 0; i < len;)` with a body: run `step` while the cursor is
below `len`, or until it `stop`s (`break`).  `fuel` bounds the number of
iterations and is instantiated with slack (see `runLoop_fuel`). -/
def runLoop {α : Type} (step : ℕ → α → StepRes α) (len : ℕ) : ℕ → ℕ → α → α
  | 0, _, d => d
  | fuel + 1, i, d =>
    if i < len then
      match step i d with
      | .cont j d2 => runLoop step len fuel j d2
      | .stop d2 => d2
    else d

/-- If every loop body strictly advances the cursor, the result of
`runLoop` is independent of the fuel once the fuel covers the distance
from the cursor to the end: the fuel is slack, not a semantic bound. -/
theorem runLoop_fuel {α : Type} (step : ℕ → α → StepRes α) (len : ℕ)
    (hstep : ∀ i d j d2, step i d = .cont j d2 → i < j) :
    ∀ f1 f2 i d, len ≤ i + f1 → len ≤ i + f2 →
      runLoop step len f1 i d = runLoop step len f2 i d := by
  intro f1
  induction f1 with
  | zero =>
    intro f2 i d h1 h2
    cases f2 with
    | zero => rfl
    | succ f2 => simp only [runLoop]; rw [if_neg (by omega)]
  | succ f1 ih =>
    intro f2 i d h1 h2
    cases f2 with
    | zero => simp only [runLoop]; rw [if_neg (by omega)]
    | succ f2 =>
      simp only [runLoop]
      by_cases hi : i < len
      · rw [if_pos hi, if_pos hi]
        cases hs : step i d with
        | cont j d2 =>
          exact ih f2 j d2 (by have := hstep i d j d2 hs; omega)
            (by have := hstep i d j d2 hs; omega)
        | stop d2 => rfl
      · rw [if_neg hi, if_neg hi]

/-- The seven boolean flags of the `EnabledSensors` object built by the
ambience decoders for channel `0xFF 0x18`. -/
structure EnabledSensorsObj where
  temperature : Bool
  humidity : Bool
  activity : Bool
  illumination : Bool
  co2 : Bool
  tvoc : Bool
  pressure : Bool
deriving DecidableEq

/-- The result object of the two ambience decoders (`AM100.js` and the
copy embedded in `AM100-node-red.js`).  `none` means the property was
never assigned. -/
structure AMDecoded where
  Error : Bool := false
  error : Option Bool := none
  battery : Option JSV := none
  temperature : Option JSV := none
  humidity : Option JSV := none
  activity : Option JSV := none
  illumination : Option JSV := none
  co2 : Option JSV := none
  tvoc : Option JSV := none
  pressure : Option JSV := none
  restart : Option JSV := none
  FormatVersion : Option JSV := none
  SerialNumber : Option JSV := none
  HardwareVersion : Option JSV := none
  SoftwareVersion : Option JSV := none
  Class : Option JSV := none
  EnabledSensors : Option EnabledSensorsObj := none
deriving DecidableEq

namespace AMDecoded

/-- Assignment `decoded.Error = b` in the source. -/
def setError (d : AMDecoded) (b : Bool) : AMDecoded := { d with Error := b }

/-- Assignment `decoded.error = b` in the source. -/
def setLowerError (d : AMDecoded) (b : Option Bool) : AMDecoded := { d with error := b }

/-- Assignment `decoded.battery = v` in the source. -/
def setBattery (d : AMDecoded) (v : Option JSV) : AMDecoded := { d with battery := v }

/-- Assignment `decoded.temperature = v` in the source. -/
def setTemperature (d : AMDecoded) (v : Option JSV) : AMDecoded := { d with temperature := v }

/-- Assignment `decoded.humidity = v` in the source. -/
def setHumidity (d : AMDecoded) (v : Option JSV) : AMDecoded := { d with humidity := v }

/-- Assignment `decoded.activity = v` in the source. -/
def setActivity (d : AMDecoded) (v : Option JSV) : AMDecoded := { d with activity := v }

/-- Assignment `decoded.illumination = v` in the source. -/
def setIllumination (d : AMDecoded) (v : Option JSV) : AMDecoded := { d with illumination := v }

/-- Assignment `decoded.co2 = v` in the source. -/
def setCo2 (d : AMDecoded) (v : Option JSV) : AMDecoded := { d with co2 := v }

/-- Assignment `decoded.tvoc = v` in the source. -/
def setTvoc (d : AMDecoded) (v : Option JSV) : AMDecoded := { d with tvoc := v }

/-- Assignment `decoded.pressure = v` in the source. -/
def setPressure (d : AMDecoded) (v : Option JSV) : AMDecoded := { d with pressure := v }

/-- Assignment `decoded.restart = v` in the source. -/
def setRestart (d : AMDecoded) (v : Option JSV) : AMDecoded := { d with restart := v }

/-- Assignment `decoded.FormatVersion = v` in the source. -/
def setFormatVersion (d : AMDecoded) (v : Option JSV) : AMDecoded := { d with FormatVersion := v }

/-- Assignment `decoded.SerialNumber = v` in the source. -/
def setSerialNumber (d : AMDecoded) (v : Option JSV) : AMDecoded := { d with SerialNumber := v }

/-- Assignment `decoded.HardwareVersion = v` in the source. -/
def setHardwareVersion (d : AMDecoded) (v : Option JSV) : AMDecoded := { d with HardwareVersion := v }

/-- Assignment `decoded.SoftwareVersion = v` in the source. -/
def setSoftwareVersion (d : AMDecoded) (v : Option JSV) : AMDecoded := { d with SoftwareVersion := v }

/-- Assignment `decoded.Class = v` in the source. -/
def setClass (d : AMDecoded) (v : Option JSV) : AMDecoded := { d with Class := v }

/-- Assignment `decoded.EnabledSensors = v` in the source. -/
def setEnabledSensors (d : AMDecoded) (v : Option EnabledSensorsObj) : AMDecoded :=
  { d with EnabledSensors := v }

end AMDecoded

namespace AM100

/-- One body of the decoding loop of `AM100.js`, at cursor `i` with
accumulated result `decoded`.  The two header reads `bytes[i++]` are the
`bytes[i]?`/`bytes[i+1]?` lookups; data reads start at `i+2`. -/
def step (bytes : List ℕ) (i : ℕ) (decoded : AMDecoded) : StepRes AMDecoded :=
  let channel_id := bytes[i]?
  let channel_type := bytes[i+1]?
  -- BATTERY
  if channel_id = some 0x01 ∧ channel_type = some 0x75 then
    let b := jread bytes (i+2)
    let b := if jsvGt b 100 then JSV.num 100 else b
    .cont (i+3) (decoded.setBattery (some b))
  -- TEMPERATURE
  else if channel_id = some 0x03 ∧ channel_type = some 0x67 then
    .cont (i+4) (decoded.setTemperature (some (.num
      ((readInt16LE (jsSlice bytes (i+2) (i+4)) : ℚ) / 10))))
  -- HUMIDITY
  else if channel_id = some 0x04 ∧ channel_type = some 0x68 then
    .cont (i+3) (decoded.setHumidity (some (jsvHalf (jread bytes (i+2)))))
  -- PIR
  else if channel_id = some 0x05 ∧ channel_type = some 0x6A then
    .cont (i+4) (decoded.setActivity (some (.num
      (readInt16LE (jsSlice bytes (i+2) (i+4))))))
  -- LIGHT
  else if channel_id = some 0x06 ∧ channel_type = some 0x65 then
    .cont (i+8) (decoded.setIllumination (some (.num
      (readInt16LE (jsSlice bytes (i+2) (i+4))))))
  -- CO2
  else if channel_id = some 0x07 ∧ channel_type = some 0x7D then
    .cont (i+4) (decoded.setCo2 (some (.num
      (readInt16LE (jsSlice bytes (i+2) (i+4))))))
  -- TVOC
  else if channel_id = some 0x08 ∧ channel_type = some 0x7D then
    .cont (i+4) (decoded.setTvoc (some (.num
      (readInt16LE (jsSlice bytes (i+2) (i+4))))))
  -- PRESSURE
  else if channel_id = some 0x09 ∧ channel_type = some 0x73 then
    .cont (i+4) (decoded.setPressure (some (.num
      ((readInt16LE (jsSlice bytes (i+2) (i+4)) : ℚ) / 10))))
  -- SYSTEM
  else if channel_id = some 0xFF then
    -- RESTART
    if channel_type = some 0x0B then
      .cont (i+3) (decoded.setRestart (some (.num 1)))
    -- FORMAT_VERSION
    else if channel_type = some 0x01 then
      .cont (i+3) (decoded.setFormatVersion (some (jread bytes (i+2))))
    -- SERIAL_NUMBER
    else if channel_type = some 0x08 then
      .cont (i+8) (decoded.setSerialNumber (some (.str
        (readHexBytes (jsSlice bytes (i+2) (i+8))))))
    -- HARDWARE_VERSION
    else if channel_type = some 0x09 then
      .cont (i+4) (decoded.setHardwareVersion (some (.num
        (readVersion (jsSlice bytes (i+2) (i+4))))))
    -- SOFTWARE_VERSION
    else if channel_type = some 0x0A then
      .cont (i+4) (decoded.setSoftwareVersion (some (.num
        (readVersion (jsSlice bytes (i+2) (i+4))))))
    -- CLASS
    else if channel_type = some 0x0F then
      .cont (i+3) (decoded.setClass (some (jread bytes (i+2))))
    -- EnabledSensors
    else if channel_type = some 0x18 then
      let enabledSensors := readUInt16BE (jsSlice bytes (i+2) (i+4))
      .cont (i+4) (decoded.setEnabledSensors (some (
        { temperature := (enabledSensors &&& 0x01) != 0
          humidity := (enabledSensors &&& 0x02) != 0
          activity := (enabledSensors &&& 0x04) != 0
          illumination := (enabledSensors &&& 0x08) != 0
          co2 := (enabledSensors &&& 0x10) != 0
          tvoc := (enabledSensors &&& 0x20) != 0
          pressure := (enabledSensors &&& 0x40) != 0 } : EnabledSensorsObj)))
    else
      .stop (decoded.setError true)
  else
    .stop (decoded.setLowerError (some true))

/-- The decoding loop of `AM100.js` (`for (var i = 0; i < bytes.length;)`). -/
def loop (fuel : ℕ) (bytes : List ℕ) (i : ℕ) (decoded : AMDecoded) : AMDecoded :=
  runLoop (step bytes) bytes.length fuel i decoded

/-- Function `Decoder` from `AM100.js`.  `port = none` models an absent
(`undefined`) port argument; a `none` result models JavaScript `null`. -/
def Decoder (bytes : List ℕ) (port : Option ℕ) : Option AMDecoded :=
  if ¬ (port = none ∨ port = some 85) then none
  else some (loop bytes.length bytes 0 {})

/-- Case analysis of one `AM100.js` loop body: a recognised channel
continues with a strictly advanced cursor and unchanged error flags; an
unknown `0xFF` sub-type stops with `Error := true` and `error`
untouched; an unknown ordinary pair stops with `error := some true` and
`Error` untouched. -/
theorem am_step_cases (bytes : List ℕ) (i : ℕ) (d : AMDecoded) :
    (∃ j d2, step bytes i d = .cont j d2 ∧ i < j ∧ d2.Error = d.Error ∧ d2.error = d.error) ∨
    (∃ d2, step bytes i d = .stop d2 ∧ d2.Error = true ∧ d2.error = d.error) ∨
    (∃ d2, step bytes i d = .stop d2 ∧ d2.Error = d.Error ∧ d2.error = some true) := by
  simp only [step]
  by_cases h1 : bytes[i]? = some 0x01 ∧ bytes[i+1]? = some 0x75
  · rw [if_pos h1]; exact Or.inl ⟨i+3, _, rfl, by omega, rfl, rfl⟩
  rw [if_neg h1]
  by_cases h2 : bytes[i]? = some 0x03 ∧ bytes[i+1]? = some 0x67
  · rw [if_pos h2]; exact Or.inl ⟨i+4, _, rfl, by omega, rfl, rfl⟩
  rw [if_neg h2]
  by_cases h3 : bytes[i]? = some 0x04 ∧ bytes[i+1]? = some 0x68
  · rw [if_pos h3]; exact Or.inl ⟨i+3, _, rfl, by omega, rfl, rfl⟩
  rw [if_neg h3]
  by_cases h4 : bytes[i]? = some 0x05 ∧ bytes[i+1]? = some 0x6A
  · rw [if_pos h4]; exact Or.inl ⟨i+4, _, rfl, by omega, rfl, rfl⟩
  rw [if_neg h4]
  by_cases h5 : bytes[i]? = some 0x06 ∧ bytes[i+1]? = some 0x65
  · rw [if_pos h5]; exact Or.inl ⟨i+8, _, rfl, by omega, rfl, rfl⟩
  rw [if_neg h5]
  by_cases h6 : bytes[i]? = some 0x07 ∧ bytes[i+1]? = some 0x7D
  · rw [if_pos h6]; exact Or.inl ⟨i+4, _, rfl, by omega, rfl, rfl⟩
  rw [if_neg h6]
  by_cases h7 : bytes[i]? = some 0x08 ∧ bytes[i+1]? = some 0x7D
  · rw [if_pos h7]; exact Or.inl ⟨i+4, _, rfl, by omega, rfl, rfl⟩
  rw [if_neg h7]
  by_cases h8 : bytes[i]? = some 0x09 ∧ bytes[i+1]? = some 0x73
  · rw [if_pos h8]; exact Or.inl ⟨i+4, _, rfl, by omega, rfl, rfl⟩
  rw [if_neg h8]
  by_cases h9 : bytes[i]? = some 0xFF
  · rw [if_pos h9]
    by_cases k1 : bytes[i+1]? = some 0x0B
    · rw [if_pos k1]; exact Or.inl ⟨i+3, _, rfl, by omega, rfl, rfl⟩
    rw [if_neg k1]
    by_cases k2 : bytes[i+1]? = some 0x01
    · rw [if_pos k2]; exact Or.inl ⟨i+3, _, rfl, by omega, rfl, rfl⟩
    rw [if_neg k2]
    by_cases k3 : bytes[i+1]? = some 0x08
    · rw [if_pos k3]; exact Or.inl ⟨i+8, _, rfl, by omega, rfl, rfl⟩
    rw [if_neg k3]
    by_cases k4 : bytes[i+1]? = some 0x09
    · rw [if_pos k4]; exact Or.inl ⟨i+4, _, rfl, by omega, rfl, rfl⟩
    rw [if_neg k4]
    by_cases k5 : bytes[i+1]? = some 0x0A
    · rw [if_pos k5]; exact Or.inl ⟨i+4, _, rfl, by omega, rfl, rfl⟩
    rw [if_neg k5]
    by_cases k6 : bytes[i+1]? = some 0x0F
    · rw [if_pos k6]; exact Or.inl ⟨i+3, _, rfl, by omega, rfl, rfl⟩
    rw [if_neg k6]
    by_cases k7 : bytes[i+1]? = some 0x18
    · rw [if_pos k7]; exact Or.inl ⟨i+4, _, rfl, by omega, rfl, rfl⟩
    rw [if_neg k7]
    exact Or.inr (Or.inl ⟨_, rfl, rfl, rfl⟩)
  rw [if_neg h9]
  exact Or.inr (Or.inr ⟨_, rfl, rfl, rfl⟩)

/-- Every loop body of `AM100.js` that continues advances the cursor. -/
theorem am_step_cont_lt (bytes : List ℕ) :
    ∀ i d j d2, step bytes i d = .cont j d2 → i < j := by
  intro i d j d2 h
  rcases am_step_cases bytes i d with ⟨j', d2', hs, hlt, _, _⟩ | ⟨d2', hs, _, _⟩ | ⟨d2', hs, _, _⟩
  · rw [hs] at h; injection h with h1 h2; omega
  · rw [hs] at h; injection h
  · rw [hs] at h; injection h

/-- The fuel passed by `Decoder` to the `AM100.js` loop is slack. -/
theorem am_loop_fuel (bytes : List ℕ) (f1 f2 i : ℕ) (d : AMDecoded)
    (h1 : bytes.length ≤ i + f1) (h2 : bytes.length ≤ i + f2) :
    loop f1 bytes i d = loop f2 bytes i d :=
  runLoop_fuel (step bytes) bytes.length (am_step_cont_lt bytes) f1 f2 i d h1 h2

end AM100

/-- The result object of the soil decoder (`EM500-SMT.js` and the copy
embedded in `AM100-node-red.js`). -/
structure SMTDecoded where
  Error : Bool := false
  error : Option Bool := none
  battery : Option JSV := none
  temperature : Option JSV := none
  humidity : Option JSV := none
  conductivity : Option JSV := none
  FormatVersion : Option JSV := none
  HardwareVersion : Option JSV := none
  SoftwareVersion : Option JSV := none
  restart : Option JSV := none
  shutdown : Option JSV := none
  SerialNumber : Option JSV := none
  Class : Option JSV := none
deriving DecidableEq

namespace SMTDecoded

/-- Assignment `decoded.Error = b` in the source. -/
def setError (d : SMTDecoded) (b : Bool) : SMTDecoded := { d with Error := b }

/-- Assignment `decoded.error = b` in the source. -/
def setLowerError (d : SMTDecoded) (b : Option Bool) : SMTDecoded := { d with error := b }

/-- Assignment `decoded.battery = v` in the source. -/
def setBattery (d : SMTDecoded) (v : Option JSV) : SMTDecoded := { d with battery := v }

/-- Assignment `decoded.temperature = v` in the source. -/
def setTemperature (d : SMTDecoded) (v : Option JSV) : SMTDecoded := { d with temperature := v }

/-- Assignment `decoded.humidity = v` in the source. -/
def setHumidity (d : SMTDecoded) (v : Option JSV) : SMTDecoded := { d with humidity := v }

/-- Assignment `decoded.conductivity = v` in the source. -/
def setConductivity (d : SMTDecoded) (v : Option JSV) : SMTDecoded := { d with conductivity := v }

/-- Assignment `decoded.FormatVersion = v` in the source. -/
def setFormatVersion (d : SMTDecoded) (v : Option JSV) : SMTDecoded := { d with FormatVersion := v }

/-- Assignment `decoded.HardwareVersion = v` in the source. -/
def setHardwareVersion (d : SMTDecoded) (v : Option JSV) : SMTDecoded := { d with HardwareVersion := v }

/-- Assignment `decoded.SoftwareVersion = v` in the source. -/
def setSoftwareVersion (d : SMTDecoded) (v : Option JSV) : SMTDecoded := { d with SoftwareVersion := v }

/-- Assignment `decoded.restart = v` in the source. -/
def setRestart (d : SMTDecoded) (v : Option JSV) : SMTDecoded := { d with restart := v }

/-- Assignment `decoded.shutdown = v` in the source. -/
def setShutdown (d : SMTDecoded) (v : Option JSV) : SMTDecoded := { d with shutdown := v }

/-- Assignment `decoded.SerialNumber = v` in the source. -/
def setSerialNumber (d : SMTDecoded) (v : Option JSV) : SMTDecoded := { d with SerialNumber := v }

/-- Assignment `decoded.Class = v` in the source. -/
def setClass (d : SMTDecoded) (v : Option JSV) : SMTDecoded := { d with Class := v }

end SMTDecoded

namespace EM500SMT

/-- One body of the decoding loop of `EM500-SMT.js`.  The source's `0xFF`
block is three statements, not one `if`/`else if` chain: the chain is
restarted by a plain `if` before `RESTART` (`0x0B`) and again before
`POWER OFF` (`0x0C`).  `s1` is the state (result, cursor) after the
first chain (FORMAT_VERSION/HARDWARE_VERSION/SOFTWARE_VERSION), `s2`
after the second (RESTART); the third chain then still runs on the same
`channel_type`, so its final `else` (set `Error`, `break`) is reached
even by types the earlier chains already handled. -/
def step (bytes : List ℕ) (i : ℕ) (decoded : SMTDecoded) : StepRes SMTDecoded :=
  -- be robust: out of data
  if (i : ℤ) > (bytes.length : ℤ) - 2 then
    .stop (decoded.setError true)
  else
    let channel_id := bytes[i]?
    let channel_type := bytes[i+1]?
    -- BATTERY
    if channel_id = some 0x01 ∧ channel_type = some 0x75 then
      .cont (i+3) (decoded.setBattery (some (jread bytes (i+2))))
    -- TEMPERATURE
    else if channel_id = some 0x03 ∧ channel_type = some 0x67 then
      .cont (i+4) (decoded.setTemperature (some (.num
        ((readInt16LE (jsSlice bytes (i+2) (i+4)) : ℚ) / 10))))
    -- MOISTURE
    else if channel_id = some 0x04 ∧ channel_type = some 0x68 then
      .cont (i+3) (decoded.setHumidity (some (jsvHalf (jread bytes (i+2)))))
    -- Electrical Conductivity
    else if channel_id = some 0x05 ∧ channel_type = some 0x7f then
      .cont (i+4) (decoded.setConductivity (some (.num
        (readInt16LE (jsSlice bytes (i+2) (i+4))))))
    -- SYSTEM
    else if channel_id = some 0xFF then
      let s1 : SMTDecoded × ℕ := if channel_type = some 0x01 then
          (decoded.setFormatVersion (some (jread bytes (i+2))), i+3)
        else if channel_type = some 0x09 then
          (decoded.setHardwareVersion (some (.num
            (readVersion (jsSlice bytes (i+2) (i+4))))), i+4)
        else if channel_type = some 0x0A then
          (decoded.setSoftwareVersion (some (.num
            (readVersion (jsSlice bytes (i+2) (i+4))))), i+4)
        else (decoded, i+2)
      let s2 : SMTDecoded × ℕ := if channel_type = some 0x0B then
          (s1.1.setRestart (some (.num 1)), s1.2 + 1)
        else s1
      -- POWER OFF
      if channel_type = some 0x0C then
        .cont (s2.2 + 1) (s2.1.setShutdown (some (.num 1)))
      -- CLASS
      else if channel_type = some 0x0F then
        .cont (s2.2 + 1) (s2.1.setClass (some (jread bytes s2.2)))
      -- SERIAL_NUMBER
      else if channel_type = some 0x16 then
        .cont (s2.2 + 6) (s2.1.setSerialNumber (some (.str
          (readHexBytes (jsSlice bytes s2.2 (s2.2 + 6))))))
      else
        .stop (s2.1.setError true)
    else
      .stop (decoded.setLowerError (some true))

/-- The decoding loop of `EM500-SMT.js`. -/
def loop (fuel : ℕ) (bytes : List ℕ) (i : ℕ) (decoded : SMTDecoded) : SMTDecoded :=
  runLoop (step bytes) bytes.length fuel i decoded

/-- Function `Decoder` from `EM500-SMT.js`. -/
def Decoder (bytes : List ℕ) (port : Option ℕ) : Option SMTDecoded :=
  if ¬ (port = none ∨ port = some 85) then none
  else some (loop bytes.length bytes 0 {})

/-- Case analysis of one `EM500-SMT.js` loop body.  Because the `0xFF`
block's `if`/`else if` chain is broken in the source, the system
sub-types `0x01`, `0x09`, `0x0A` and `0x0B` decode their field and then
still fall into the final `else`, stopping with `Error := true`; only
`0x0C`, `0x0F` and `0x16` continue. -/
theorem smt_step_cases (bytes : List ℕ) (i : ℕ) (d : SMTDecoded) :
    (∃ j d2, step bytes i d = .cont j d2 ∧ i < j ∧ d2.Error = d.Error ∧ d2.error = d.error) ∨
    (∃ d2, step bytes i d = .stop d2 ∧ d2.Error = true ∧ d2.error = d.error) ∨
    (∃ d2, step bytes i d = .stop d2 ∧ d2.Error = d.Error ∧ d2.error = some true) := by
  simp only [step]
  by_cases ht : (i : ℤ) > (bytes.length : ℤ) - 2
  · rw [if_pos ht]; exact Or.inr (Or.inl ⟨_, rfl, rfl, rfl⟩)
  rw [if_neg ht]
  by_cases h1 : bytes[i]? = some 0x01 ∧ bytes[i+1]? = some 0x75
  · rw [if_pos h1]; exact Or.inl ⟨i+3, _, rfl, by omega, rfl, rfl⟩
  rw [if_neg h1]
  by_cases h2 : bytes[i]? = some 0x03 ∧ bytes[i+1]? = some 0x67
  · rw [if_pos h2]; exact Or.inl ⟨i+4, _, rfl, by omega, rfl, rfl⟩
  rw [if_neg h2]
  by_cases h3 : bytes[i]? = some 0x04 ∧ bytes[i+1]? = some 0x68
  · rw [if_pos h3]; exact Or.inl ⟨i+3, _, rfl, by omega, rfl, rfl⟩
  rw [if_neg h3]
  by_cases h4 : bytes[i]? = some 0x05 ∧ bytes[i+1]? = some 0x7f
  · rw [if_pos h4]; exact Or.inl ⟨i+4, _, rfl, by omega, rfl, rfl⟩
  rw [if_neg h4]
  by_cases h5 : bytes[i]? = some 0xFF
  · rw [if_pos h5]
    by_cases k1 : bytes[i+1]? = some 0x01
    · rw [if_pos k1, if_neg (show ¬bytes[i+1]? = some 0x0B by simp [k1]),
          if_neg (show ¬bytes[i+1]? = some 0x0C by simp [k1]),
          if_neg (show ¬bytes[i+1]? = some 0x0F by simp [k1]),
          if_neg (show ¬bytes[i+1]? = some 0x16 by simp [k1])]
      exact Or.inr (Or.inl ⟨_, rfl, rfl, rfl⟩)
    rw [if_neg k1]
    by_cases k2 : bytes[i+1]? = some 0x09
    · rw [if_pos k2, if_neg (show ¬bytes[i+1]? = some 0x0B by simp [k2]),
          if_neg (show ¬bytes[i+1]? = some 0x0C by simp [k2]),
          if_neg (show ¬bytes[i+1]? = some 0x0F by simp [k2]),
          if_neg (show ¬bytes[i+1]? = some 0x16 by simp [k2])]
      exact Or.inr (Or.inl ⟨_, rfl, rfl, rfl⟩)
    rw [if_neg k2]
    by_cases k3 : bytes[i+1]? = some 0x0A
    · rw [if_pos k3, if_neg (show ¬bytes[i+1]? = some 0x0B by simp [k3]),
          if_neg (show ¬bytes[i+1]? = some 0x0C by simp [k3]),
          if_neg (show ¬bytes[i+1]? = some 0x0F by simp [k3]),
          if_neg (show ¬bytes[i+1]? = some 0x16 by simp [k3])]
      exact Or.inr (Or.inl ⟨_, rfl, rfl, rfl⟩)
    rw [if_neg k3]
    by_cases k4 : bytes[i+1]? = some 0x0B
    · rw [if_pos k4, if_neg (show ¬bytes[i+1]? = some 0x0C by simp [k4]),
          if_neg (show ¬bytes[i+1]? = some 0x0F by simp [k4]),
          if_neg (show ¬bytes[i+1]? = some 0x16 by simp [k4])]
      exact Or.inr (Or.inl ⟨_, rfl, rfl, rfl⟩)
    rw [if_neg k4]
    by_cases k5 : bytes[i+1]? = some 0x0C
    · rw [if_pos k5]; exact Or.inl ⟨i+3, _, rfl, by omega, rfl, rfl⟩
    rw [if_neg k5]
    by_cases k6 : bytes[i+1]? = some 0x0F
    · rw [if_pos k6]; exact Or.inl ⟨i+3, _, rfl, by omega, rfl, rfl⟩
    rw [if_neg k6]
    by_cases k7 : bytes[i+1]? = some 0x16
    · rw [if_pos k7]; exact Or.inl ⟨i+8, _, rfl, by omega, rfl, rfl⟩
    rw [if_neg k7]
    exact Or.inr (Or.inl ⟨_, rfl, rfl, rfl⟩)
  rw [if_neg h5]
  exact Or.inr (Or.inr ⟨_, rfl, rfl, rfl⟩)

/-- Every loop body of `EM500-SMT.js` that continues advances the cursor. -/
theorem smt_step_cont_lt (bytes : List ℕ) :
    ∀ i d j d2, step bytes i d = .cont j d2 → i < j := by
  intro i d j d2 h
  rcases smt_step_cases bytes i d with ⟨j', d2', hs, hlt, _, _⟩ | ⟨d2', hs, _, _⟩ | ⟨d2', hs, _, _⟩
  · rw [hs] at h; injection h with h1 h2; omega
  · rw [hs] at h; injection h
  · rw [hs] at h; injection h

/-- The fuel passed by `Decoder` to the `EM500-SMT.js` loop is slack. -/
theorem smt_loop_fuel (bytes : List ℕ) (f1 f2 i : ℕ) (d : SMTDecoded)
    (h1 : bytes.length ≤ i + f1) (h2 : bytes.length ≤ i + f2) :
    loop f1 bytes i d = loop f2 bytes i d :=
  runLoop_fuel (step bytes) bytes.length (smt_step_cont_lt bytes) f1 f2 i d h1 h2

end EM500SMT

/-- The result object of the light decoder (the unnamed EM500-LGT
source file).  It has no error fields: the source never assigns any. -/
structure LGTDecoded where
  battery : Option JSV := none
  light : Option JSV := none
deriving DecidableEq

namespace LGTDecoded

/-- Assignment `decoded.battery = v` in the source. -/
def setBattery (d : LGTDecoded) (v : Option JSV) : LGTDecoded := { d with battery := v }

/-- Assignment `decoded.light = v` in the source. -/
def setLight (d : LGTDecoded) (v : Option JSV) : LGTDecoded := { d with light := v }

end LGTDecoded

namespace EM500LGT

/-- One body of the decoding loop of the unnamed EM500-LGT source file:
battery and light only, and a silent `break` (no flag) on an unknown
pair. -/
def step (bytes : List ℕ) (i : ℕ) (decoded : LGTDecoded) : StepRes LGTDecoded :=
  let channel_id := bytes[i]?
  let channel_type := bytes[i+1]?
  -- BATTERY
  if channel_id = some 0x01 ∧ channel_type = some 0x75 then
    .cont (i+3) (decoded.setBattery (some (jread bytes (i+2))))
  -- LIGHT
  else if channel_id = some 0x03 ∧ channel_type = some 0x94 then
    .cont (i+6) (decoded.setLight (some (.num
      (readInt16LE (jsSlice bytes (i+2) (i+6))))))
  else
    .stop decoded

/-- The decoding loop of the unnamed EM500-LGT source file. -/
def loop (fuel : ℕ) (bytes : List ℕ) (i : ℕ) (decoded : LGTDecoded) : LGTDecoded :=
  runLoop (step bytes) bytes.length fuel i decoded

/-- Function `Decoder` from the unnamed EM500-LGT source file: it has no port
check at all, the `port` argument is ignored. -/
def Decoder (bytes : List ℕ) (port : Option ℕ) : Option LGTDecoded :=
  some (loop bytes.length bytes 0 {})

/-- Case analysis of one EM500-LGT loop body: a recognised channel
continues with a strictly advanced cursor; anything else stops silently
with the result unchanged. -/
theorem lgt_step_cases (bytes : List ℕ) (i : ℕ) (d : LGTDecoded) :
    (∃ j d2, step bytes i d = .cont j d2 ∧ i < j) ∨ step bytes i d = .stop d := by
  simp only [step]
  by_cases h1 : bytes[i]? = some 0x01 ∧ bytes[i+1]? = some 0x75
  · rw [if_pos h1]; exact Or.inl ⟨i+3, _, rfl, by omega⟩
  rw [if_neg h1]
  by_cases h2 : bytes[i]? = some 0x03 ∧ bytes[i+1]? = some 0x94
  · rw [if_pos h2]; exact Or.inl ⟨i+6, _, rfl, by omega⟩
  rw [if_neg h2]
  exact Or.inr rfl

/-- Every loop body of the EM500-LGT file that continues advances the
cursor. -/
theorem lgt_step_cont_lt (bytes : List ℕ) :
    ∀ i d j d2, step bytes i d = .cont j d2 → i < j := by
  intro i d j d2 h
  rcases lgt_step_cases bytes i d with ⟨j', d2', hs, hlt⟩ | hs
  · rw [hs] at h; injection h with h1 h2; omega
  · rw [hs] at h; injection h

/-- The fuel passed by `Decoder` to the EM500-LGT loop is slack. -/
theorem lgt_loop_fuel (bytes : List ℕ) (f1 f2 i : ℕ) (d : LGTDecoded)
    (h1 : bytes.length ≤ i + f1) (h2 : bytes.length ≤ i + f2) :
    loop f1 bytes i d = loop f2 bytes i d :=
  runLoop_fuel (step bytes) bytes.length (lgt_step_cont_lt bytes) f1 f2 i d h1 h2

end EM500LGT

namespace AM100NR

/-- One body of the decoding loop of the `Decoder` embedded in
`AM100-node-red.js`.  It is the `AM100.js` body except that PIR, LIGHT,
TVOC and PRESSURE are read with `readUInt16LE` (unsigned) instead of
`readInt16LE`. -/
def step (bytes : List ℕ) (i : ℕ) (decoded : AMDecoded) : StepRes AMDecoded :=
  let channel_id := bytes[i]?
  let channel_type := bytes[i+1]?
  -- BATTERY
  if channel_id = some 0x01 ∧ channel_type = some 0x75 then
    let b := jread bytes (i+2)
    let b := if jsvGt b 100 then JSV.num 100 else b
    .cont (i+3) (decoded.setBattery (some b))
  -- TEMPERATURE
  else if channel_id = some 0x03 ∧ channel_type = some 0x67 then
    .cont (i+4) (decoded.setTemperature (some (.num
      ((readInt16LE (jsSlice bytes (i+2) (i+4)) : ℚ) / 10))))
  -- HUMIDITY
  else if channel_id = some 0x04 ∧ channel_type = some 0x68 then
    .cont (i+3) (decoded.setHumidity (some (jsvHalf (jread bytes (i+2)))))
  -- PIR (unsigned here)
  else if channel_id = some 0x05 ∧ channel_type = some 0x6A then
    .cont (i+4) (decoded.setActivity (some (.num
      (readUInt16LE (jsSlice bytes (i+2) (i+4))))))
  -- LIGHT (unsigned here)
  else if channel_id = some 0x06 ∧ channel_type = some 0x65 then
    .cont (i+8) (decoded.setIllumination (some (.num
      (readUInt16LE (jsSlice bytes (i+2) (i+4))))))
  -- CO2 (still signed)
  else if channel_id = some 0x07 ∧ channel_type = some 0x7D then
    .cont (i+4) (decoded.setCo2 (some (.num
      (readInt16LE (jsSlice bytes (i+2) (i+4))))))
  -- TVOC (unsigned here)
  else if channel_id = some 0x08 ∧ channel_type = some 0x7D then
    .cont (i+4) (decoded.setTvoc (some (.num
      (readUInt16LE (jsSlice bytes (i+2) (i+4))))))
  -- PRESSURE (unsigned here)
  else if channel_id = some 0x09 ∧ channel_type = some 0x73 then
    .cont (i+4) (decoded.setPressure (some (.num
      ((readUInt16LE (jsSlice bytes (i+2) (i+4)) : ℚ) / 10))))
  -- SYSTEM
  else if channel_id = some 0xFF then
    -- RESTART
    if channel_type = some 0x0B then
      .cont (i+3) (decoded.setRestart (some (.num 1)))
    -- FORMAT_VERSION
    else if channel_type = some 0x01 then
      .cont (i+3) (decoded.setFormatVersion (some (jread bytes (i+2))))
    -- SERIAL_NUMBER
    else if channel_type = some 0x08 then
      .cont (i+8) (decoded.setSerialNumber (some (.str
        (readHexBytes (jsSlice bytes (i+2) (i+8))))))
    -- HARDWARE_VERSION
    else if channel_type = some 0x09 then
      .cont (i+4) (decoded.setHardwareVersion (some (.num
        (readVersion (jsSlice bytes (i+2) (i+4))))))
    -- SOFTWARE_VERSION
    else if channel_type = some 0x0A then
      .cont (i+4) (decoded.setSoftwareVersion (some (.num
        (readVersion (jsSlice bytes (i+2) (i+4))))))
    -- CLASS
    else if channel_type = some 0x0F then
      .cont (i+3) (decoded.setClass (some (jread bytes (i+2))))
    -- EnabledSensors
    else if channel_type = some 0x18 then
      let enabledSensors := readUInt16BE (jsSlice bytes (i+2) (i+4))
      .cont (i+4) (decoded.setEnabledSensors (some (
        { temperature := (enabledSensors &&& 0x01) != 0
          humidity := (enabledSensors &&& 0x02) != 0
          activity := (enabledSensors &&& 0x04) != 0
          illumination := (enabledSensors &&& 0x08) != 0
          co2 := (enabledSensors &&& 0x10) != 0
          tvoc := (enabledSensors &&& 0x20) != 0
          pressure := (enabledSensors &&& 0x40) != 0 } : EnabledSensorsObj)))
    else
      .stop (decoded.setError true)
  else
    .stop (decoded.setLowerError (some true))

/-- The decoding loop of the `Decoder` embedded in `AM100-node-red.js`. -/
def loop (fuel : ℕ) (bytes : List ℕ) (i : ℕ) (decoded : AMDecoded) : AMDecoded :=
  runLoop (step bytes) bytes.length fuel i decoded

/-- The `Decoder` embedded in `AM100-node-red.js`. -/
def Decoder (bytes : List ℕ) (port : Option ℕ) : Option AMDecoded :=
  if ¬ (port = none ∨ port = some 85) then none
  else some (loop bytes.length bytes 0 {})

/-- Case analysis of one node-red ambience loop body: a recognised channel
continues with a strictly advanced cursor and unchanged error flags; an
unknown `0xFF` sub-type stops with `Error := true` and `error`
untouched; an unknown ordinary pair stops with `error := some true` and
`Error` untouched. -/
theorem nr_step_cases (bytes : List ℕ) (i : ℕ) (d : AMDecoded) :
    (∃ j d2, step bytes i d = .cont j d2 ∧ i < j ∧ d2.Error = d.Error ∧ d2.error = d.error) ∨
    (∃ d2, step bytes i d = .stop d2 ∧ d2.Error = true ∧ d2.error = d.error) ∨
    (∃ d2, step bytes i d = .stop d2 ∧ d2.Error = d.Error ∧ d2.error = some true) := by
  simp only [step]
  by_cases h1 : bytes[i]? = some 0x01 ∧ bytes[i+1]? = some 0x75
  · rw [if_pos h1]; exact Or.inl ⟨i+3, _, rfl, by omega, rfl, rfl⟩
  rw [if_neg h1]
  by_cases h2 : bytes[i]? = some 0x03 ∧ bytes[i+1]? = some 0x67
  · rw [if_pos h2]; exact Or.inl ⟨i+4, _, rfl, by omega, rfl, rfl⟩
  rw [if_neg h2]
  by_cases h3 : bytes[i]? = some 0x04 ∧ bytes[i+1]? = some 0x68
  · rw [if_pos h3]; exact Or.inl ⟨i+3, _, rfl, by omega, rfl, rfl⟩
  rw [if_neg h3]
  by_cases h4 : bytes[i]? = some 0x05 ∧ bytes[i+1]? = some 0x6A
  · rw [if_pos h4]; exact Or.inl ⟨i+4, _, rfl, by omega, rfl, rfl⟩
  rw [if_neg h4]
  by_cases h5 : bytes[i]? = some 0x06 ∧ bytes[i+1]? = some 0x65
  · rw [if_pos h5]; exact Or.inl ⟨i+8, _, rfl, by omega, rfl, rfl⟩
  rw [if_neg h5]
  by_cases h6 : bytes[i]? = some 0x07 ∧ bytes[i+1]? = some 0x7D
  · rw [if_pos h6]; exact Or.inl ⟨i+4, _, rfl, by omega, rfl, rfl⟩
  rw [if_neg h6]
  by_cases h7 : bytes[i]? = some 0x08 ∧ bytes[i+1]? = some 0x7D
  · rw [if_pos h7]; exact Or.inl ⟨i+4, _, rfl, by omega, rfl, rfl⟩
  rw [if_neg h7]
  by_cases h8 : bytes[i]? = some 0x09 ∧ bytes[i+1]? = some 0x73
  · rw [if_pos h8]; exact Or.inl ⟨i+4, _, rfl, by omega, rfl, rfl⟩
  rw [if_neg h8]
  by_cases h9 : bytes[i]? = some 0xFF
  · rw [if_pos h9]
    by_cases k1 : bytes[i+1]? = some 0x0B
    · rw [if_pos k1]; exact Or.inl ⟨i+3, _, rfl, by omega, rfl, rfl⟩
    rw [if_neg k1]
    by_cases k2 : bytes[i+1]? = some 0x01
    · rw [if_pos k2]; exact Or.inl ⟨i+3, _, rfl, by omega, rfl, rfl⟩
    rw [if_neg k2]
    by_cases k3 : bytes[i+1]? = some 0x08
    · rw [if_pos k3]; exact Or.inl ⟨i+8, _, rfl, by omega, rfl, rfl⟩
    rw [if_neg k3]
    by_cases k4 : bytes[i+1]? = some 0x09
    · rw [if_pos k4]; exact Or.inl ⟨i+4, _, rfl, by omega, rfl, rfl⟩
    rw [if_neg k4]
    by_cases k5 : bytes[i+1]? = some 0x0A
    · rw [if_pos k5]; exact Or.inl ⟨i+4, _, rfl, by omega, rfl, rfl⟩
    rw [if_neg k5]
    by_cases k6 : bytes[i+1]? = some 0x0F
    · rw [if_pos k6]; exact Or.inl ⟨i+3, _, rfl, by omega, rfl, rfl⟩
    rw [if_neg k6]
    by_cases k7 : bytes[i+1]? = some 0x18
    · rw [if_pos k7]; exact Or.inl ⟨i+4, _, rfl, by omega, rfl, rfl⟩
    rw [if_neg k7]
    exact Or.inr (Or.inl ⟨_, rfl, rfl, rfl⟩)
  rw [if_neg h9]
  exact Or.inr (Or.inr ⟨_, rfl, rfl, rfl⟩)

/-- Every loop body of the node-red variant that continues advances the
cursor. -/
theorem nr_step_cont_lt (bytes : List ℕ) :
    ∀ i d j d2, step bytes i d = .cont j d2 → i < j := by
  intro i d j d2 h
  rcases nr_step_cases bytes i d with ⟨j', d2', hs, hlt, _, _⟩ | ⟨d2', hs, _, _⟩ | ⟨d2', hs, _, _⟩
  · rw [hs] at h; injection h with h1 h2; omega
  · rw [hs] at h; injection h
  · rw [hs] at h; injection h

/-- The fuel passed by `Decoder` to the node-red loop is slack. -/
theorem nr_loop_fuel (bytes : List ℕ) (f1 f2 i : ℕ) (d : AMDecoded)
    (h1 : bytes.length ≤ i + f1) (h2 : bytes.length ≤ i + f2) :
    loop f1 bytes i d = loop f2 bytes i d :=
  runLoop_fuel (step bytes) bytes.length (nr_step_cont_lt bytes) f1 f2 i d h1 h2

end AM100NR


/-! ### Spec-side definitions

These follow the specification's wording (not the source) and are what
the claims compare the source functions against. -/

/-- The specification's 16-bit signed little-endian read: the value
`lo + 256 * hi`, reinterpreted as negative by subtracting `0x10000` when
it is `≥ 0x8000`. -/
def signedLE16spec (lo hi : ℕ) : ℤ :=
  if 0x8000 ≤ lo + 256 * hi then (lo + 256 * hi : ℤ) - 0x10000 else (lo + 256 * hi : ℤ)

/-- The specification's packed-BCD byte-pair rule: a byte whose low
nibble exceeds 9 or whose value is `≥ 0xA0` decodes to 0; otherwise the
two nibbles are the tens and units digits. -/
def bcdPairSpec (v : ℕ) : ℕ :=
  if v % 16 > 9 ∨ v ≥ 0xA0 then 0 else v % 16 + 10 * (v / 16)

/-- A single lowercase hexadecimal digit (`0`–`9`, `a`–`f`). -/
def hexDigitChar (n : ℕ) : Char :=
  if n < 10 then Char.ofNat (48 + n) else Char.ofNat (87 + n)

/-- The specification's rendering of one byte: exactly two lowercase
hexadecimal digits, no `0x` prefix. -/
def twoLowerHex (v : ℕ) : List Char :=
  [hexDigitChar (v / 16), hexDigitChar (v % 16)]

/-! ### Helper lemmas about the numeric readers -/

theorem readUInt16LE_pair (lo hi : ℕ) (hlo : lo < 256) (hhi : hi < 256) :
    readUInt16LE [lo, hi] = lo + 256 * hi := by
  simp only [readUInt16LE, List.getD]
  norm_num
  omega

theorem readInt16LE_pair (lo hi : ℕ) (hlo : lo < 256) (hhi : hi < 256) :
    readInt16LE [lo, hi] = signedLE16spec lo hi := by
  simp only [readInt16LE, readUInt16LE_pair lo hi hlo hhi, signedLE16spec]
  split_ifs <;> push_cast <;> omega

set_option maxRecDepth 4096 in
theorem bcd2ToDecimal_eq : ∀ v, v < 256 → bcd2ToDecimal v = bcdPairSpec v := by
  decide

theorem readVersion_pair (b0 b1 : ℕ) (h0 : b0 < 256) (h1 : b1 < 256) :
    readVersion [b0, b1] = (bcdPairSpec b0 : ℚ) + (bcdPairSpec b1 : ℚ) / 100 := by
  have hbe : readUInt16BE [b0, b1] = b0 * 256 + b1 := by
    simp [readUInt16BE, List.getD]
  have hhi : (b0 * 256 + b1) >>> 8 = b0 := by
    rw [Nat.shiftRight_eq_div_pow]
    omega
  have hlo : (b0 * 256 + b1) &&& 0xFF = b1 := by
    have := Nat.and_pow_two_sub_one_eq_mod (b0 * 256 + b1) 8
    norm_num at this
    omega
  rw [readVersion, hbe, bcd22ToVersion, hhi, hlo,
    bcd2ToDecimal_eq b0 h0, bcd2ToDecimal_eq b1 h1]

set_option maxRecDepth 4096 in
theorem encodeHex_eq : ∀ v, v < 256 → encodeHex v = twoLowerHex v := by
  decide

theorem readHexBytes6 (b0 b1 b2 b3 b4 b5 : ℕ) :
    readHexBytes [b0, b1, b2, b3, b4, b5] =
      encodeHex b0 ++ '-' :: encodeHex b1 ++ '-' :: encodeHex b2 ++
        '-' :: encodeHex b3 ++ '-' :: encodeHex b4 ++ '-' :: encodeHex b5 := by
  simp [readHexBytes]

/-! ### A generic error-flag invariant for the decoding loops -/

/-- If every loop body either continues preserving both error flags, or
stops setting exactly one of them (leaving the other untouched), then a
run started with both flags clear never ends with `Error = true` and
`error = some true` together. -/
theorem runLoop_flags {α : Type} (step : ℕ → α → StepRes α) (len : ℕ)
    (E : α → Bool) (e : α → Option Bool)
    (hcont : ∀ i d j d2, step i d = .cont j d2 → E d2 = E d ∧ e d2 = e d)
    (hstop : ∀ i d d2, step i d = .stop d2 →
      (E d2 = true ∧ e d2 = e d) ∨ (E d2 = E d ∧ e d2 = some true)) :
    ∀ fuel i d, E d = false → e d = none →
      ¬(E (runLoop step len fuel i d) = true ∧
        e (runLoop step len fuel i d) = some true) := by
  intro fuel
  induction fuel with
  | zero =>
    intro i d hE he hc
    rw [runLoop] at hc
    rw [hE] at hc
    exact absurd hc.1 (by simp)
  | succ fuel ih =>
    intro i d hE he
    simp only [runLoop]
    by_cases hi : i < len
    · rw [if_pos hi]
      cases hs : step i d with
      | cont j d2 =>
        obtain ⟨h1, h2⟩ := hcont i d j d2 hs
        exact ih j d2 (by rw [h1, hE]) (by rw [h2, he])
      | stop d2 =>
        rcases hstop i d d2 hs with ⟨h1, h2⟩ | ⟨h1, h2⟩
        · intro hc
          rw [h2, he] at hc
          exact absurd hc.2 (by simp)
        · intro hc
          rw [h1, hE] at hc
          exact absurd hc.1 (by simp)
    · rw [if_neg hi]
      intro hc
      rw [hE] at hc
      exact absurd hc.1 (by simp)

/-! ### Branch and flag lemmas for the individual decoders -/

theorem AM100.am_step_flags_cont (bytes : List ℕ) :
    ∀ i d j d2, AM100.step bytes i d = .cont j d2 →
      d2.Error = d.Error ∧ d2.error = d.error := by
  intro i d j d2 h
  rcases AM100.am_step_cases bytes i d with ⟨j', d2', hs, _, h1, h2⟩ | ⟨d2', hs, _, _⟩ |
    ⟨d2', hs, _, _⟩ <;> rw [hs] at h
  · injection h with e1 e2
    subst e2
    exact ⟨h1, h2⟩
  · injection h
  · injection h

theorem AM100.am_step_flags_stop (bytes : List ℕ) :
    ∀ i d d2, AM100.step bytes i d = .stop d2 →
      (d2.Error = true ∧ d2.error = d.error) ∨ (d2.Error = d.Error ∧ d2.error = some true) := by
  intro i d d2 h
  rcases AM100.am_step_cases bytes i d with ⟨j', d2', hs, _, _, _⟩ | ⟨d2', hs, h1, h2⟩ |
    ⟨d2', hs, h1, h2⟩ <;> rw [hs] at h
  · injection h
  · injection h with e
    subst e
    exact Or.inl ⟨h1, h2⟩
  · injection h with e
    subst e
    exact Or.inr ⟨h1, h2⟩

theorem EM500SMT.smt_step_flags_cont (bytes : List ℕ) :
    ∀ i d j d2, EM500SMT.step bytes i d = .cont j d2 →
      d2.Error = d.Error ∧ d2.error = d.error := by
  intro i d j d2 h
  rcases EM500SMT.smt_step_cases bytes i d with ⟨j', d2', hs, _, h1, h2⟩ | ⟨d2', hs, _, _⟩ |
    ⟨d2', hs, _, _⟩ <;> rw [hs] at h
  · injection h with e1 e2
    subst e2
    exact ⟨h1, h2⟩
  · injection h
  · injection h

theorem EM500SMT.smt_step_flags_stop (bytes : List ℕ) :
    ∀ i d d2, EM500SMT.step bytes i d = .stop d2 →
      (d2.Error = true ∧ d2.error = d.error) ∨ (d2.Error = d.Error ∧ d2.error = some true) := by
  intro i d d2 h
  rcases EM500SMT.smt_step_cases bytes i d with ⟨j', d2', hs, _, _, _⟩ | ⟨d2', hs, h1, h2⟩ |
    ⟨d2', hs, h1, h2⟩ <;> rw [hs] at h
  · injection h
  · injection h with e
    subst e
    exact Or.inl ⟨h1, h2⟩
  · injection h with e
    subst e
    exact Or.inr ⟨h1, h2⟩

theorem AM100.am_Decoder_none (bytes : List ℕ) :
    AM100.Decoder bytes none = some (AM100.loop bytes.length bytes 0 {}) := by
  simp [Decoder]

theorem AM100NR.nr_Decoder_none (bytes : List ℕ) :
    AM100NR.Decoder bytes none = some (AM100NR.loop bytes.length bytes 0 {}) := by
  simp [Decoder]

theorem EM500SMT.smt_Decoder_none (bytes : List ℕ) :
    EM500SMT.Decoder bytes none = some (EM500SMT.loop bytes.length bytes 0 {}) := by
  simp [Decoder]

/-- On the ambience decoder, whenever some result is returned with the
lowercase `error` flag set, the capitalized `Error` flag is false. -/
theorem AM100.am_error_flag_split (bytes : List ℕ) (port : Option ℕ) (r : AMDecoded)
    (h : AM100.Decoder bytes port = some r) (he : r.error = some true) : r.Error = false := by
  unfold Decoder at h
  by_cases hp : ¬(port = none ∨ port = some 85)
  · rw [if_pos hp] at h
    exact absurd h (by simp)
  · rw [if_neg hp] at h
    injection h with h2
    have hinv := runLoop_flags (AM100.step bytes) bytes.length AMDecoded.Error AMDecoded.error
      (AM100.am_step_flags_cont bytes) (AM100.am_step_flags_stop bytes) bytes.length 0 {} rfl rfl
    subst h2
    cases hE : (AM100.loop bytes.length bytes 0 {}).Error
    · rfl
    · exact absurd ⟨hE, he⟩ hinv

/-- On the soil decoder, whenever some result is returned with the
lowercase `error` flag set, the capitalized `Error` flag is false. -/
theorem EM500SMT.smt_error_flag_split (bytes : List ℕ) (port : Option ℕ) (r : SMTDecoded)
    (h : EM500SMT.Decoder bytes port = some r) (he : r.error = some true) : r.Error = false := by
  unfold Decoder at h
  by_cases hp : ¬(port = none ∨ port = some 85)
  · rw [if_pos hp] at h
    exact absurd h (by simp)
  · rw [if_neg hp] at h
    injection h with h2
    have hinv := runLoop_flags (EM500SMT.step bytes) bytes.length SMTDecoded.Error
      SMTDecoded.error (EM500SMT.smt_step_flags_cont bytes) (EM500SMT.smt_step_flags_stop bytes)
      bytes.length 0 {} rfl rfl
    subst h2
    cases hE : (EM500SMT.loop bytes.length bytes 0 {}).Error
    · rfl
    · exact absurd ⟨hE, he⟩ hinv

/-- One loop body of `AM100.js` on an unrecognised ordinary pair:
lowercase `error` is set and the loop breaks, keeping the accumulated
result. -/
theorem AM100.am_step_unknown_ordinary (bytes : List ℕ) (i : ℕ) (d : AMDecoded)
    (h1 : ¬(bytes[i]? = some 0x01 ∧ bytes[i+1]? = some 0x75))
    (h2 : ¬(bytes[i]? = some 0x03 ∧ bytes[i+1]? = some 0x67))
    (h3 : ¬(bytes[i]? = some 0x04 ∧ bytes[i+1]? = some 0x68))
    (h4 : ¬(bytes[i]? = some 0x05 ∧ bytes[i+1]? = some 0x6A))
    (h5 : ¬(bytes[i]? = some 0x06 ∧ bytes[i+1]? = some 0x65))
    (h6 : ¬(bytes[i]? = some 0x07 ∧ bytes[i+1]? = some 0x7D))
    (h7 : ¬(bytes[i]? = some 0x08 ∧ bytes[i+1]? = some 0x7D))
    (h8 : ¬(bytes[i]? = some 0x09 ∧ bytes[i+1]? = some 0x73))
    (h9 : ¬bytes[i]? = some 0xFF) :
    AM100.step bytes i d = .stop (d.setLowerError (some true)) := by
  simp only [step]
  rw [if_neg h1, if_neg h2, if_neg h3, if_neg h4, if_neg h5, if_neg h6, if_neg h7, if_neg h8,
    if_neg h9]

/-- The `AM100.js` loop, arriving at an unrecognised ordinary pair with
at least one more iteration to run: it stops with `error := some true`,
retaining every previously decoded field of `d`. -/
theorem AM100.am_loop_unknown_ordinary (bytes : List ℕ) (fuel i : ℕ) (d : AMDecoded)
    (hlt : i < bytes.length)
    (h1 : ¬(bytes[i]? = some 0x01 ∧ bytes[i+1]? = some 0x75))
    (h2 : ¬(bytes[i]? = some 0x03 ∧ bytes[i+1]? = some 0x67))
    (h3 : ¬(bytes[i]? = some 0x04 ∧ bytes[i+1]? = some 0x68))
    (h4 : ¬(bytes[i]? = some 0x05 ∧ bytes[i+1]? = some 0x6A))
    (h5 : ¬(bytes[i]? = some 0x06 ∧ bytes[i+1]? = some 0x65))
    (h6 : ¬(bytes[i]? = some 0x07 ∧ bytes[i+1]? = some 0x7D))
    (h7 : ¬(bytes[i]? = some 0x08 ∧ bytes[i+1]? = some 0x7D))
    (h8 : ¬(bytes[i]? = some 0x09 ∧ bytes[i+1]? = some 0x73))
    (h9 : ¬bytes[i]? = some 0xFF) :
    AM100.loop (fuel+1) bytes i d = d.setLowerError (some true) := by
  have hs := AM100.am_step_unknown_ordinary bytes i d h1 h2 h3 h4 h5 h6 h7 h8 h9
  simp only [loop, runLoop, if_pos hlt, hs]

/-- One loop body of `AM100.js` on a `0xFF` header with an unrecognised
sub-type: capitalized `Error` is set and the loop breaks. -/
theorem AM100.step_unknown_system (bytes : List ℕ) (i : ℕ) (d : AMDecoded)
    (hid : bytes[i]? = some 0xFF)
    (k1 : ¬bytes[i+1]? = some 0x0B)
    (k2 : ¬bytes[i+1]? = some 0x01)
    (k3 : ¬bytes[i+1]? = some 0x08)
    (k4 : ¬bytes[i+1]? = some 0x09)
    (k5 : ¬bytes[i+1]? = some 0x0A)
    (k6 : ¬bytes[i+1]? = some 0x0F)
    (k7 : ¬bytes[i+1]? = some 0x18) :
    AM100.step bytes i d = .stop (d.setError true) := by
  simp only [step]
  rw [if_neg (fun hc => (by simp [hid] at hc : False)),
    if_neg (fun hc => (by simp [hid] at hc : False)),
    if_neg (fun hc => (by simp [hid] at hc : False)),
    if_neg (fun hc => (by simp [hid] at hc : False)),
    if_neg (fun hc => (by simp [hid] at hc : False)),
    if_neg (fun hc => (by simp [hid] at hc : False)),
    if_neg (fun hc => (by simp [hid] at hc : False)),
    if_neg (fun hc => (by simp [hid] at hc : False)),
    if_pos hid, if_neg k1, if_neg k2, if_neg k3, if_neg k4, if_neg k5, if_neg k6, if_neg k7]

/-- The `AM100.js` loop at a `0xFF` header with unknown sub-type: stops
with `Error := true`. -/
theorem AM100.loop_unknown_system (bytes : List ℕ) (fuel i : ℕ) (d : AMDecoded)
    (hlt : i < bytes.length)
    (hid : bytes[i]? = some 0xFF)
    (k1 : ¬bytes[i+1]? = some 0x0B)
    (k2 : ¬bytes[i+1]? = some 0x01)
    (k3 : ¬bytes[i+1]? = some 0x08)
    (k4 : ¬bytes[i+1]? = some 0x09)
    (k5 : ¬bytes[i+1]? = some 0x0A)
    (k6 : ¬bytes[i+1]? = some 0x0F)
    (k7 : ¬bytes[i+1]? = some 0x18) :
    AM100.loop (fuel+1) bytes i d = d.setError true := by
  have hs := AM100.step_unknown_system bytes i d hid k1 k2 k3 k4 k5 k6 k7
  simp only [loop, runLoop, if_pos hlt, hs]

/-- One loop body of `EM500-SMT.js` when fewer than 2 bytes remain:
`Error` is set and the loop breaks (the source's "be robust" check). -/
theorem EM500SMT.step_trunc (bytes : List ℕ) (i : ℕ) (d : SMTDecoded)
    (ht : (i : ℤ) > (bytes.length : ℤ) - 2) :
    EM500SMT.step bytes i d = .stop (d.setError true) := by
  simp only [step]
  rw [if_pos ht]

/-- The `EM500-SMT.js` loop with a live cursor but fewer than 2 bytes
remaining: it stops with `Error := true`, retaining the accumulated
result. -/
theorem EM500SMT.loop_trunc (bytes : List ℕ) (fuel i : ℕ) (d : SMTDecoded)
    (hlt : i < bytes.length) (ht : (i : ℤ) > (bytes.length : ℤ) - 2) :
    EM500SMT.loop (fuel+1) bytes i d = d.setError true := by
  have hs := EM500SMT.step_trunc bytes i d ht
  simp only [loop, runLoop, if_pos hlt, hs]

/-- One loop body of `EM500-SMT.js` on an unrecognised ordinary pair:
lowercase `error` is set and the loop breaks. -/
theorem EM500SMT.smt_step_unknown_ordinary (bytes : List ℕ) (i : ℕ) (d : SMTDecoded)
    (ht : ¬((i : ℤ) > (bytes.length : ℤ) - 2))
    (h1 : ¬(bytes[i]? = some 0x01 ∧ bytes[i+1]? = some 0x75))
    (h2 : ¬(bytes[i]? = some 0x03 ∧ bytes[i+1]? = some 0x67))
    (h3 : ¬(bytes[i]? = some 0x04 ∧ bytes[i+1]? = some 0x68))
    (h4 : ¬(bytes[i]? = some 0x05 ∧ bytes[i+1]? = some 0x7f))
    (h5 : ¬bytes[i]? = some 0xFF) :
    EM500SMT.step bytes i d = .stop (d.setLowerError (some true)) := by
  simp only [step]
  rw [if_neg ht, if_neg h1, if_neg h2, if_neg h3, if_neg h4, if_neg h5]

/-- The `EM500-SMT.js` loop at an unrecognised ordinary pair: stops with
`error := some true`, retaining every previously decoded field. -/
theorem EM500SMT.smt_loop_unknown_ordinary (bytes : List ℕ) (fuel i : ℕ) (d : SMTDecoded)
    (hlt : i < bytes.length)
    (ht : ¬((i : ℤ) > (bytes.length : ℤ) - 2))
    (h1 : ¬(bytes[i]? = some 0x01 ∧ bytes[i+1]? = some 0x75))
    (h2 : ¬(bytes[i]? = some 0x03 ∧ bytes[i+1]? = some 0x67))
    (h3 : ¬(bytes[i]? = some 0x04 ∧ bytes[i+1]? = some 0x68))
    (h4 : ¬(bytes[i]? = some 0x05 ∧ bytes[i+1]? = some 0x7f))
    (h5 : ¬bytes[i]? = some 0xFF) :
    EM500SMT.loop (fuel+1) bytes i d = d.setLowerError (some true) := by
  have hs := EM500SMT.smt_step_unknown_ordinary bytes i d ht h1 h2 h3 h4 h5
  simp only [loop, runLoop, if_pos hlt, hs]

/-- One loop body of the node-red ambience copy on an unrecognised
ordinary pair: lowercase `error` is set and the loop breaks, keeping the
accumulated result. -/
theorem AM100NR.nr_step_unknown_ordinary (bytes : List ℕ) (i : ℕ) (d : AMDecoded)
    (h1 : ¬(bytes[i]? = some 0x01 ∧ bytes[i+1]? = some 0x75))
    (h2 : ¬(bytes[i]? = some 0x03 ∧ bytes[i+1]? = some 0x67))
    (h3 : ¬(bytes[i]? = some 0x04 ∧ bytes[i+1]? = some 0x68))
    (h4 : ¬(bytes[i]? = some 0x05 ∧ bytes[i+1]? = some 0x6A))
    (h5 : ¬(bytes[i]? = some 0x06 ∧ bytes[i+1]? = some 0x65))
    (h6 : ¬(bytes[i]? = some 0x07 ∧ bytes[i+1]? = some 0x7D))
    (h7 : ¬(bytes[i]? = some 0x08 ∧ bytes[i+1]? = some 0x7D))
    (h8 : ¬(bytes[i]? = some 0x09 ∧ bytes[i+1]? = some 0x73))
    (h9 : ¬bytes[i]? = some 0xFF) :
    AM100NR.step bytes i d = .stop (d.setLowerError (some true)) := by
  simp only [step]
  rw [if_neg h1, if_neg h2, if_neg h3, if_neg h4, if_neg h5, if_neg h6, if_neg h7, if_neg h8,
    if_neg h9]

/-- The node-red ambience loop, arriving at an unrecognised ordinary
pair: it stops with `error := some true`, retaining every previously
decoded field of `d`. -/
theorem AM100NR.nr_loop_unknown_ordinary (bytes : List ℕ) (fuel i : ℕ) (d : AMDecoded)
    (hlt : i < bytes.length)
    (h1 : ¬(bytes[i]? = some 0x01 ∧ bytes[i+1]? = some 0x75))
    (h2 : ¬(bytes[i]? = some 0x03 ∧ bytes[i+1]? = some 0x67))
    (h3 : ¬(bytes[i]? = some 0x04 ∧ bytes[i+1]? = some 0x68))
    (h4 : ¬(bytes[i]? = some 0x05 ∧ bytes[i+1]? = some 0x6A))
    (h5 : ¬(bytes[i]? = some 0x06 ∧ bytes[i+1]? = some 0x65))
    (h6 : ¬(bytes[i]? = some 0x07 ∧ bytes[i+1]? = some 0x7D))
    (h7 : ¬(bytes[i]? = some 0x08 ∧ bytes[i+1]? = some 0x7D))
    (h8 : ¬(bytes[i]? = some 0x09 ∧ bytes[i+1]? = some 0x73))
    (h9 : ¬bytes[i]? = some 0xFF) :
    AM100NR.loop (fuel+1) bytes i d = d.setLowerError (some true) := by
  have hs := AM100NR.nr_step_unknown_ordinary bytes i d h1 h2 h3 h4 h5 h6 h7 h8 h9
  simp only [loop, runLoop, if_pos hlt, hs]

/-- One loop body of `EM500-SMT.js` on a `0xFF` header whose sub-type
matches none of the seven types the `0xFF` block mentions: the three
restarted chains all fall through and the final `else` sets capitalized
`Error`, breaking the loop with no field decoded. -/
theorem EM500SMT.smt_step_unknown_system (bytes : List ℕ) (i : ℕ) (d : SMTDecoded)
    (ht : ¬((i : ℤ) > (bytes.length : ℤ) - 2))
    (hid : bytes[i]? = some 0xFF)
    (k1 : ¬bytes[i+1]? = some 0x01)
    (k2 : ¬bytes[i+1]? = some 0x09)
    (k3 : ¬bytes[i+1]? = some 0x0A)
    (k4 : ¬bytes[i+1]? = some 0x0B)
    (k5 : ¬bytes[i+1]? = some 0x0C)
    (k6 : ¬bytes[i+1]? = some 0x0F)
    (k7 : ¬bytes[i+1]? = some 0x16) :
    EM500SMT.step bytes i d = .stop (d.setError true) := by
  simp only [step]
  rw [if_neg ht,
    if_neg (fun hc => (by simp [hid] at hc : False)),
    if_neg (fun hc => (by simp [hid] at hc : False)),
    if_neg (fun hc => (by simp [hid] at hc : False)),
    if_neg (fun hc => (by simp [hid] at hc : False)),
    if_pos hid, if_neg k1, if_neg k2, if_neg k3, if_neg k4, if_neg k5, if_neg k6, if_neg k7]

/-- The `EM500-SMT.js` loop at a `0xFF` header with a sub-type outside
the `0xFF` block entirely: stops with `Error := true`. -/
theorem EM500SMT.smt_loop_unknown_system (bytes : List ℕ) (fuel i : ℕ) (d : SMTDecoded)
    (hlt : i < bytes.length)
    (ht : ¬((i : ℤ) > (bytes.length : ℤ) - 2))
    (hid : bytes[i]? = some 0xFF)
    (k1 : ¬bytes[i+1]? = some 0x01)
    (k2 : ¬bytes[i+1]? = some 0x09)
    (k3 : ¬bytes[i+1]? = some 0x0A)
    (k4 : ¬bytes[i+1]? = some 0x0B)
    (k5 : ¬bytes[i+1]? = some 0x0C)
    (k6 : ¬bytes[i+1]? = some 0x0F)
    (k7 : ¬bytes[i+1]? = some 0x16) :
    EM500SMT.loop (fuel+1) bytes i d = d.setError true := by
  have hs := EM500SMT.smt_step_unknown_system bytes i d ht hid k1 k2 k3 k4 k5 k6 k7
  simp only [loop, runLoop, if_pos hlt, hs]

/-- One loop body of the EM500-LGT decoder on an unrecognised pair: the
loop breaks silently, with the result object unchanged — no error field
of any kind is written. -/
theorem EM500LGT.step_unknown (bytes : List ℕ) (i : ℕ) (d : LGTDecoded)
    (h1 : ¬(bytes[i]? = some 0x01 ∧ bytes[i+1]? = some 0x75))
    (h2 : ¬(bytes[i]? = some 0x03 ∧ bytes[i+1]? = some 0x94)) :
    EM500LGT.step bytes i d = .stop d := by
  simp only [step]
  rw [if_neg h1, if_neg h2]

/-- The EM500-LGT loop at an unrecognised pair: stops silently with the
accumulated result unchanged. -/
theorem EM500LGT.loop_unknown (bytes : List ℕ) (fuel i : ℕ) (d : LGTDecoded)
    (hlt : i < bytes.length)
    (h1 : ¬(bytes[i]? = some 0x01 ∧ bytes[i+1]? = some 0x75))
    (h2 : ¬(bytes[i]? = some 0x03 ∧ bytes[i+1]? = some 0x94)) :
    EM500LGT.loop (fuel+1) bytes i d = d := by
  have hs := EM500LGT.step_unknown bytes i d h1 h2
  simp only [loop, runLoop, if_pos hlt, hs]

/-! ### The per-profile channel tables (spec side)

The ordinary (non-`0xFF`) channels each profile recognises, as
(channel-id, channel-type) pairs, read off the dispatch chains. -/

/-- Ordinary channels of the ambience profile (`AM100.js` and the
node-red copy). -/
def amTable : List (ℕ × ℕ) :=
  [(0x01, 0x75), (0x03, 0x67), (0x04, 0x68), (0x05, 0x6A),
   (0x06, 0x65), (0x07, 0x7D), (0x08, 0x7D), (0x09, 0x73)]

/-- Ordinary channels of the soil profile (`EM500-SMT.js`). -/
def smtTable : List (ℕ × ℕ) :=
  [(0x01, 0x75), (0x03, 0x67), (0x04, 0x68), (0x05, 0x7f)]

/-- Channels of the light profile (the unnamed EM500-LGT file). -/
def lgtTable : List (ℕ × ℕ) :=
  [(0x01, 0x75), (0x03, 0x94)]

/-- Table form of `AM100.am_loop_unknown_ordinary`: an ordinary pair absent
from the ambience table makes the loop stop with `error := some true`. -/
theorem AM100.am_loop_unknown_table (bytes : List ℕ) (fuel i : ℕ) (d : AMDecoded) (cid ct : ℕ)
    (hlt : i < bytes.length) (hci : bytes[i]? = some cid) (hct : bytes[i+1]? = some ct)
    (hord : cid ≠ 0xFF) (hmem : (cid, ct) ∉ amTable) :
    AM100.loop (fuel+1) bytes i d = d.setLowerError (some true) := by
  apply AM100.am_loop_unknown_ordinary bytes fuel i d hlt
  all_goals first
    | (rintro ⟨e1, e2⟩
       rw [hci] at e1
       rw [hct] at e2
       injection e1 with e1
       injection e2 with e2
       subst e1
       subst e2
       simp [amTable] at hmem)
    | (intro e
       rw [hci] at e
       injection e with e
       exact hord e)

/-- Table form of `AM100NR.nr_loop_unknown_ordinary`: the node-red copy
shares the ambience table, and an ordinary pair absent from it makes the
loop stop with `error := some true`. -/
theorem AM100NR.nr_loop_unknown_table (bytes : List ℕ) (fuel i : ℕ) (d : AMDecoded) (cid ct : ℕ)
    (hlt : i < bytes.length) (hci : bytes[i]? = some cid) (hct : bytes[i+1]? = some ct)
    (hord : cid ≠ 0xFF) (hmem : (cid, ct) ∉ amTable) :
    AM100NR.loop (fuel+1) bytes i d = d.setLowerError (some true) := by
  apply AM100NR.nr_loop_unknown_ordinary bytes fuel i d hlt
  all_goals first
    | (rintro ⟨e1, e2⟩
       rw [hci] at e1
       rw [hct] at e2
       injection e1 with e1
       injection e2 with e2
       subst e1
       subst e2
       simp [amTable] at hmem)
    | (intro e
       rw [hci] at e
       injection e with e
       exact hord e)

/-- Table form of `EM500SMT.smt_loop_unknown_ordinary`.  The truncation
guard passes automatically: a present channel-type byte means at least
two bytes remain. -/
theorem EM500SMT.smt_loop_unknown_table (bytes : List ℕ) (fuel i : ℕ) (d : SMTDecoded) (cid ct : ℕ)
    (hlt : i < bytes.length) (hci : bytes[i]? = some cid) (hct : bytes[i+1]? = some ct)
    (hord : cid ≠ 0xFF) (hmem : (cid, ct) ∉ smtTable) :
    EM500SMT.loop (fuel+1) bytes i d = d.setLowerError (some true) := by
  have hlen : i + 1 < bytes.length := by
    by_contra hc
    rw [List.getElem?_eq_none (by omega)] at hct
    exact absurd hct (by simp)
  apply EM500SMT.smt_loop_unknown_ordinary bytes fuel i d hlt (by omega)
  all_goals first
    | (rintro ⟨e1, e2⟩
       rw [hci] at e1
       rw [hct] at e2
       injection e1 with e1
       injection e2 with e2
       subst e1
       subst e2
       simp [smtTable] at hmem)
    | (intro e
       rw [hci] at e
       injection e with e
       exact hord e)

/-- Table form of `EM500LGT.loop_unknown`: a pair absent from the light
table makes the loop stop silently, with the result unchanged. -/
theorem EM500LGT.lgt_loop_unknown_table (bytes : List ℕ) (fuel i : ℕ) (d : LGTDecoded) (cid ct : ℕ)
    (hlt : i < bytes.length) (hci : bytes[i]? = some cid) (hct : bytes[i+1]? = some ct)
    (hmem : (cid, ct) ∉ lgtTable) :
    EM500LGT.loop (fuel+1) bytes i d = d := by
  apply EM500LGT.loop_unknown bytes fuel i d hlt
  all_goals
    rintro ⟨e1, e2⟩
    rw [hci] at e1
    rw [hct] at e2
    injection e1 with e1
    injection e2 with e2
    subst e1
    subst e2
    simp [lgtTable] at hmem

/-! ### The claims -/

/-- Claim C1: in the EM500-SMT decoder, the system record
`[0xFF, 0x01, v]` (FORMAT_VERSION, listed in the profile's own
dispatch) is decoded — `FormatVersion` is stored — and yet the result
comes back with `Error = true`, because the broken `else if` chain of
the `0xFF` block falls through to its final `else`.  This contradicts
the claim that every table-listed single-record input decodes with the
error flag false. -/
theorem C1_smt_valid_record_sets_error :
    EM500SMT.Decoder [0xFF, 0x01, 0x02] none =
      some { FormatVersion := some (.num 2), Error := true } := by
  decide

/-- Claim C2 (amended): in the two ambience decoders (`AM100.js` and
the node-red copy) and the soil decoder, an ordinary (channel-id ≠ 0xFF)
pair absent from the profile's table stops the loop
immediately and sets the lowercase `error` flag to true, retaining every
field decoded before that point; `[0x02, 0x99]` on the ambience decoder
yields `error = some true`, `Error = false` and no data fields.  The
light decoder stops immediately and retains prior fields, but sets no
error flag at all. -/
theorem C2_unknown_channel :
    (∀ (bytes : List ℕ) (fuel i : ℕ) (d : AMDecoded) (cid ct : ℕ),
      i < bytes.length → bytes[i]? = some cid → bytes[i+1]? = some ct →
      cid ≠ 0xFF → (cid, ct) ∉ amTable →
      AM100.loop (fuel+1) bytes i d = d.setLowerError (some true)) ∧
    (∀ (bytes : List ℕ) (fuel i : ℕ) (d : AMDecoded) (cid ct : ℕ),
      i < bytes.length → bytes[i]? = some cid → bytes[i+1]? = some ct →
      cid ≠ 0xFF → (cid, ct) ∉ amTable →
      AM100NR.loop (fuel+1) bytes i d = d.setLowerError (some true)) ∧
    (∀ (bytes : List ℕ) (fuel i : ℕ) (d : SMTDecoded) (cid ct : ℕ),
      i < bytes.length → bytes[i]? = some cid → bytes[i+1]? = some ct →
      cid ≠ 0xFF → (cid, ct) ∉ smtTable →
      EM500SMT.loop (fuel+1) bytes i d = d.setLowerError (some true)) ∧
    (∀ (bytes : List ℕ) (fuel i : ℕ) (d : LGTDecoded) (cid ct : ℕ),
      i < bytes.length → bytes[i]? = some cid → bytes[i+1]? = some ct →
      (cid, ct) ∉ lgtTable →
      EM500LGT.loop (fuel+1) bytes i d = d) ∧
    AM100.Decoder [0x02, 0x99] none = some { error := some true } := by
  refine ⟨AM100.am_loop_unknown_table, AM100NR.nr_loop_unknown_table,
    EM500SMT.smt_loop_unknown_table, EM500LGT.lgt_loop_unknown_table, by decide⟩

/-- Claim C2, counterexample to the claim as stated: on the light
profile, decoding the unknown pair `[0x02, 0x99]` returns the empty
result object — no error flag is set to true (the result has no error
field at all), contradicting "it sets the result's error flag to
true". -/
theorem C2_counterexample :
    EM500LGT.Decoder [0x02, 0x99] none = some { battery := none, light := none } := by
  decide

/-- Claim C2, witness: the amended theorem applied at concrete inputs. -/
theorem C2_witness :
    AM100.loop 2 [0x02, 0x99] 0 {} = ({} : AMDecoded).setLowerError (some true) ∧
    AM100NR.loop 2 [0x02, 0x99] 0 {} = ({} : AMDecoded).setLowerError (some true) ∧
    EM500SMT.loop 2 [0x02, 0x99] 0 {} = ({} : SMTDecoded).setLowerError (some true) ∧
    EM500LGT.loop 2 [0x02, 0x99] 0 {} = ({} : LGTDecoded) ∧
    AM100.Decoder [0x02, 0x99] none = some { error := some true } :=
  ⟨C2_unknown_channel.1 [0x02, 0x99] 1 0 {} 0x02 0x99 (by decide) (by decide) (by decide)
      (by decide) (by decide),
   C2_unknown_channel.2.1 [0x02, 0x99] 1 0 {} 0x02 0x99 (by decide) (by decide) (by decide)
      (by decide) (by decide),
   C2_unknown_channel.2.2.1 [0x02, 0x99] 1 0 {} 0x02 0x99 (by decide) (by decide) (by decide)
      (by decide) (by decide),
   C2_unknown_channel.2.2.2.1 [0x02, 0x99] 1 0 {} 0x02 0x99 (by decide) (by decide) (by decide)
      (by decide),
   C2_unknown_channel.2.2.2.2⟩

/-- Claim C3 (amended): only the soil decoder performs the
`cursor > length - 2` truncation check, setting `Error := true` and
stopping.  The ambience decoder has no such check: it reads the
(undefined) channel-type byte and reports a single trailing byte through
the unknown-channel paths instead — lowercase `error = some true` when
the byte is not `0xFF`, and `Error = true` when it is `0xFF`.  In all
cases a length-1 input yields an otherwise-empty result with some flag
set, but which flag depends on the decoder and the byte. -/
theorem C3_truncation :
    (∀ (bytes : List ℕ) (fuel i : ℕ) (d : SMTDecoded),
      i < bytes.length → (i : ℤ) > (bytes.length : ℤ) - 2 →
      EM500SMT.loop (fuel+1) bytes i d = d.setError true) ∧
    (∀ b : ℕ, b ≠ 0xFF →
      AM100.Decoder [b] none = some { error := some true }) ∧
    AM100.Decoder [0xFF] none = some { Error := true } := by
  refine ⟨EM500SMT.loop_trunc, ?_, ?_⟩
  · intro b hb
    rw [AM100.am_Decoder_none]
    have h := AM100.am_loop_unknown_ordinary [b] 0 0 {} (by simp)
      (by simp) (by simp) (by simp) (by simp) (by simp) (by simp) (by simp) (by simp)
      (by simpa using hb)
    simp only [List.length_singleton]
    rw [h]
    rfl
  · rw [AM100.am_Decoder_none]
    have h := AM100.loop_unknown_system [0xFF] 0 0 {} (by simp) (by simp)
      (by simp) (by simp) (by simp) (by simp) (by simp) (by simp) (by simp)
    simp only [List.length_singleton]
    rw [h]
    rfl

/-- Claim C3, counterexample to the claim as stated: the ambience
decoder on the length-1 input `[0x00]` does not perform a truncation
check; the flag that truncation sets in this code base (`Error`, cf.
the soil decoder) remains false, and the unknown-channel flag `error`
is set instead. -/
theorem C3_counterexample :
    AM100.Decoder [0x00] none = some { error := some true } ∧
    ({ error := some true } : AMDecoded).Error = false := by
  exact ⟨by decide, rfl⟩

/-- Claim C3, witness: the amended theorem applied at concrete inputs. -/
theorem C3_witness :
    EM500SMT.loop 1 [0x05] 0 {} = ({} : SMTDecoded).setError true ∧
    AM100.Decoder [0x00] none = some { error := some true } ∧
    AM100.Decoder [0xFF] none = some { Error := true } :=
  ⟨C3_truncation.1 [0x05] 0 0 {} (by decide) (by decide),
   C3_truncation.2.1 0x00 (by decide),
   C3_truncation.2.2⟩

/-- Claim C4 (amended): the ambience, soil and node-red decoders return
`null` immediately for any supplied port other than 85 and decode
unconditionally when no port is supplied; the light decoder has no port
check at all and decodes unconditionally whatever the port argument. -/
theorem C4_port_gate :
    (∀ (bytes : List ℕ) (p : ℕ), p ≠ 85 →
      AM100.Decoder bytes (some p) = none ∧
      EM500SMT.Decoder bytes (some p) = none ∧
      AM100NR.Decoder bytes (some p) = none) ∧
    (∀ bytes : List ℕ,
      AM100.Decoder bytes none = some (AM100.loop bytes.length bytes 0 {}) ∧
      EM500SMT.Decoder bytes none = some (EM500SMT.loop bytes.length bytes 0 {}) ∧
      AM100NR.Decoder bytes none = some (AM100NR.loop bytes.length bytes 0 {})) ∧
    (∀ (bytes : List ℕ) (port : Option ℕ),
      EM500LGT.Decoder bytes port = some (EM500LGT.loop bytes.length bytes 0 {})) := by
  refine ⟨?_, ?_, ?_⟩
  · intro bytes p hp
    refine ⟨?_, ?_, ?_⟩ <;> simp [AM100.Decoder, EM500SMT.Decoder, AM100NR.Decoder, hp]
  · intro bytes
    exact ⟨AM100.am_Decoder_none bytes, EM500SMT.smt_Decoder_none bytes, AM100NR.nr_Decoder_none bytes⟩
  · intro bytes port
    rfl

/-- Claim C4, counterexample to the claim as stated: the light decoder,
given the mismatching port 1, does not return null — it decodes the
battery record regardless of the port. -/
theorem C4_counterexample :
    EM500LGT.Decoder [0x01, 0x75, 0x64] (some 1) = some { battery := some (.num 100) } ∧
    some ({ battery := some (.num 100) } : LGTDecoded) ≠ (none : Option LGTDecoded) := by
  exact ⟨by decide, by simp⟩

/-- Claim C4, witness: the amended theorem applied at concrete inputs. -/
theorem C4_witness :
    (AM100.Decoder [0x01] (some 1) = none ∧
      EM500SMT.Decoder [0x01] (some 1) = none ∧
      AM100NR.Decoder [0x01] (some 1) = none) ∧
    AM100.Decoder [] none = some (AM100.loop 0 [] 0 {}) ∧
    EM500LGT.Decoder [] (some 1) = some (EM500LGT.loop 0 [] 0 {}) :=
  ⟨C4_port_gate.1 [0x01] 1 (by decide),
   (C4_port_gate.2.1 []).1,
   C4_port_gate.2.2 [] (some 1)⟩

/-- Claim C5 (amended): only the ambience decoders (`AM100.js` and the
node-red copy) clamp the battery byte to `min(v, 100)`; the soil and
light decoders store the raw byte unclamped.  Raw value 50 decodes to 50
in every profile (witness), but raw value 200 decodes to 200, not 100,
on the soil and light profiles (counterexample). -/
theorem C5_battery_clamp :
    (∀ v : ℕ, v < 256 →
      AM100.Decoder [0x01, 0x75, v] none = some { battery := some (.num (min v 100 : ℕ)) } ∧
      AM100NR.Decoder [0x01, 0x75, v] none = some { battery := some (.num (min v 100 : ℕ)) }) ∧
    (∀ v : ℕ, v < 256 →
      EM500SMT.Decoder [0x01, 0x75, v] none = some { battery := some (.num v) } ∧
      EM500LGT.Decoder [0x01, 0x75, v] none = some { battery := some (.num v) }) := by
  constructor
  · intro v hv
    constructor
    · rw [AM100.am_Decoder_none]
      simp [AM100.loop, runLoop, AM100.step, jread, jsvGt, AMDecoded.setBattery]
      split_ifs with h
      · congr 1
        exact (min_eq_right (by exact_mod_cast h.le)).symm
      · congr 1
        exact (min_eq_left (by exact_mod_cast not_lt.mp h)).symm
    · rw [AM100NR.nr_Decoder_none]
      simp [AM100NR.loop, runLoop, AM100NR.step, jread, jsvGt, AMDecoded.setBattery]
      split_ifs with h
      · congr 1
        exact (min_eq_right (by exact_mod_cast h.le)).symm
      · congr 1
        exact (min_eq_left (by exact_mod_cast not_lt.mp h)).symm
  · intro v hv
    constructor
    · rw [EM500SMT.smt_Decoder_none]
      simp [EM500SMT.loop, runLoop, EM500SMT.step, jread, SMTDecoded.setBattery]
    · simp [EM500LGT.Decoder, EM500LGT.loop, runLoop, EM500LGT.step, jread,
        LGTDecoded.setBattery]

/-- Claim C5, counterexample to the claim as stated: the soil decoder
stores battery raw value 200 as 200; `min(200, 100)` is 100, so battery
is not stored clamped "in every profile". -/
theorem C5_counterexample :
    EM500SMT.Decoder [0x01, 0x75, 200] none = some { battery := some (.num 200) } ∧
    (200 : ℕ) ≠ min 200 100 := by
  exact ⟨by decide, by decide⟩

/-- Claim C5, witness: the amended theorem applied at raw values 200
and 50. -/
theorem C5_witness :
    AM100.Decoder [0x01, 0x75, 200] none = some { battery := some (.num (min 200 100 : ℕ)) } ∧
    AM100.Decoder [0x01, 0x75, 50] none = some { battery := some (.num (min 50 100 : ℕ)) } ∧
    EM500SMT.Decoder [0x01, 0x75, 50] none = some { battery := some (.num 50) } :=
  ⟨(C5_battery_clamp.1 200 (by decide)).1,
   (C5_battery_clamp.1 50 (by decide)).1,
   (C5_battery_clamp.2 50 (by decide)).1⟩

/-- Claim C6: the ambience temperature channel `0x03 0x67` stores the
16-bit little-endian value `lo + 256 * hi`, reinterpreted as negative by
subtracting `0x10000` when it is `≥ 0x8000`, divided by 10 (the
division is exact in this model, floating point in the source); no
error flag is set (all other fields of the result are their initial
values). -/
theorem C6_temperature_signed_LE :
    ∀ lo hi : ℕ, lo < 256 → hi < 256 →
      AM100.Decoder [0x03, 0x67, lo, hi] none =
        some { temperature := some (.num ((signedLE16spec lo hi : ℚ) / 10)) } := by
  intro lo hi hlo hhi
  rw [AM100.am_Decoder_none]
  simp [AM100.loop, runLoop, AM100.step, jsSlice, AMDecoded.setTemperature]
  rw [readInt16LE_pair lo hi hlo hhi]

/-- Claim C6, witness: bytes `[0x03, 0x67, 0xE6, 0x00]` decode to
temperature 23 with no error. -/
theorem C6_witness :
    AM100.Decoder [0x03, 0x67, 0xE6, 0x00] none =
      some { temperature := some (.num 23) } := by
  have h := C6_temperature_signed_LE 0xE6 0x00 (by decide) (by decide)
  rw [h]
  norm_num [signedLE16spec]

/-- Claim C7: the ambience hardware/software version channels
`0xFF 0x09` and `0xFF 0x0A` read their two data bytes big-endian as two
packed-BCD byte pairs and store `major + minor / 100`, where a byte
whose low nibble exceeds 9 or whose value is `≥ 0xA0` decodes to 0
(`bcdPairSpec`); the result carries no error flag (all other fields are
their initial values). -/
theorem C7_bcd_version :
    ∀ b0 b1 : ℕ, b0 < 256 → b1 < 256 →
      AM100.Decoder [0xFF, 0x09, b0, b1] none =
        some { HardwareVersion := some (.num
          ((bcdPairSpec b0 : ℚ) + (bcdPairSpec b1 : ℚ) / 100)) } ∧
      AM100.Decoder [0xFF, 0x0A, b0, b1] none =
        some { SoftwareVersion := some (.num
          ((bcdPairSpec b0 : ℚ) + (bcdPairSpec b1 : ℚ) / 100)) } := by
  intro b0 b1 h0 h1
  constructor
  · rw [AM100.am_Decoder_none]
    simp [AM100.loop, runLoop, AM100.step, jsSlice, AMDecoded.setHardwareVersion]
    rw [readVersion_pair b0 b1 h0 h1]
  · rw [AM100.am_Decoder_none]
    simp [AM100.loop, runLoop, AM100.step, jsSlice, AMDecoded.setSoftwareVersion]
    rw [readVersion_pair b0 b1 h0 h1]

/-- Claim C7, witness: bytes `[0xFF, 0x09, 0x02, 0x01]` decode to
`HardwareVersion = 2.01`, and an invalid BCD byte (`0x0A`, low nibble
10) decodes its component to 0 without any error flag. -/
theorem C7_witness :
    AM100.Decoder [0xFF, 0x09, 0x02, 0x01] none =
      some { HardwareVersion := some (.num (201 / 100)) } ∧
    AM100.Decoder [0xFF, 0x09, 0x0A, 0x01] none =
      some { HardwareVersion := some (.num (1 / 100)) } := by
  constructor
  · have h := (C7_bcd_version 0x02 0x01 (by decide) (by decide)).1
    rw [h]
    norm_num [bcdPairSpec]
  · have h := (C7_bcd_version 0x0A 0x01 (by decide) (by decide)).1
    rw [h]
    norm_num [bcdPairSpec]

/-- Claim C8: the ambience serial-number channel `0xFF 0x08` stores the
six data bytes as a hyphen-separated string, each byte rendered as
exactly two lowercase hexadecimal digits with no prefix. -/
theorem C8_serial_hex :
    ∀ b0 b1 b2 b3 b4 b5 : ℕ,
      b0 < 256 → b1 < 256 → b2 < 256 → b3 < 256 → b4 < 256 → b5 < 256 →
      AM100.Decoder [0xFF, 0x08, b0, b1, b2, b3, b4, b5] none =
        some { SerialNumber := some (.str (twoLowerHex b0 ++ '-' :: twoLowerHex b1 ++
          '-' :: twoLowerHex b2 ++ '-' :: twoLowerHex b3 ++ '-' :: twoLowerHex b4 ++
          '-' :: twoLowerHex b5)) } := by
  intro b0 b1 b2 b3 b4 b5 h0 h1 h2 h3 h4 h5
  rw [AM100.am_Decoder_none]
  simp [AM100.loop, runLoop, AM100.step, jsSlice, AMDecoded.setSerialNumber]
  rw [readHexBytes6, encodeHex_eq b0 h0, encodeHex_eq b1 h1, encodeHex_eq b2 h2,
    encodeHex_eq b3 h3, encodeHex_eq b4 h4, encodeHex_eq b5 h5]
  simp

/-- Claim C8, witness: bytes `[0xFF, 0x08, 0xAA, 0xBB, 0xCC, 0xDD, 0xEE, 0xFF]`
decode to the serial-number string `"aa-bb-cc-dd-ee-ff"`. -/
theorem C8_witness :
    AM100.Decoder [0xFF, 0x08, 0xAA, 0xBB, 0xCC, 0xDD, 0xEE, 0xFF] none =
      some { SerialNumber := some (.str "aa-bb-cc-dd-ee-ff".toList) } := by
  have h := C8_serial_hex 0xAA 0xBB 0xCC 0xDD 0xEE 0xFF (by decide) (by decide) (by decide)
    (by decide) (by decide) (by decide)
  rw [h]
  decide

/-- A 16-bit value read signed differs from the same value read
unsigned exactly when it is `≥ 0x8000` (as stored rationals). -/
theorem signed_vs_unsigned (lo hi : ℕ) :
    (((signedLE16spec lo hi : ℤ) : ℚ) = ((lo + 256 * hi : ℕ) : ℚ)) ↔
      lo + 256 * hi < 0x8000 := by
  rw [show ((lo + 256 * hi : ℕ) : ℚ) = ((lo + 256 * hi : ℤ) : ℚ) by push_cast; ring,
    Int.cast_inj, signedLE16spec]
  split_ifs with h <;> constructor <;> intro h2 <;> omega

/-- Division by 10 is injective on the stored rationals. -/
theorem qdiv10_inj (a b : ℚ) : a / 10 = b / 10 ↔ a = b :=
  div_left_inj' (by norm_num)

/-- Claim C9: the `AM100.js` decoder and the near-identical decoder
embedded in `AM100-node-red.js` genuinely diverge: for the PIR/activity
(`0x05 0x6A`), illumination (`0x06 0x65`), TVOC (`0x08 0x7D`) and
pressure (`0x09 0x73`) channels, `AM100.js` reads signed
(`readInt16LE`) while the node-red copy reads unsigned
(`readUInt16LE`), so on a single-record input their results differ
exactly when the raw 16-bit value is `≥ 0x8000`; the input
`[0x05, 0x6A, 0x00, 0x80]` witnesses an actual disagreement. -/
theorem C9_signed_unsigned_divergence :
    AM100.Decoder [0x05, 0x6A, 0x00, 0x80] none ≠
      AM100NR.Decoder [0x05, 0x6A, 0x00, 0x80] none ∧
    ∀ lo hi : ℕ, lo < 256 → hi < 256 →
      ((AM100.Decoder [0x05, 0x6A, lo, hi] none ≠
          AM100NR.Decoder [0x05, 0x6A, lo, hi] none) ↔ 0x8000 ≤ lo + 256 * hi) ∧
      ((AM100.Decoder [0x06, 0x65, lo, hi, 0, 0, 0, 0] none ≠
          AM100NR.Decoder [0x06, 0x65, lo, hi, 0, 0, 0, 0] none) ↔ 0x8000 ≤ lo + 256 * hi) ∧
      ((AM100.Decoder [0x08, 0x7D, lo, hi] none ≠
          AM100NR.Decoder [0x08, 0x7D, lo, hi] none) ↔ 0x8000 ≤ lo + 256 * hi) ∧
      ((AM100.Decoder [0x09, 0x73, lo, hi] none ≠
          AM100NR.Decoder [0x09, 0x73, lo, hi] none) ↔ 0x8000 ≤ lo + 256 * hi) := by
  constructor
  · decide
  intro lo hi hlo hhi
  refine ⟨?_, ?_, ?_, ?_⟩
  · rw [AM100.am_Decoder_none, AM100NR.nr_Decoder_none]
    simp [AM100.loop, AM100NR.loop, runLoop, AM100.step, AM100NR.step, jsSlice,
      AMDecoded.setActivity, AMDecoded.mk.injEq]
    rw [readInt16LE_pair lo hi hlo hhi, readUInt16LE_pair lo hi hlo hhi,
      signed_vs_unsigned]
    omega
  · rw [AM100.am_Decoder_none, AM100NR.nr_Decoder_none]
    simp [AM100.loop, AM100NR.loop, runLoop, AM100.step, AM100NR.step, jsSlice,
      AMDecoded.setIllumination, AMDecoded.mk.injEq]
    rw [readInt16LE_pair lo hi hlo hhi, readUInt16LE_pair lo hi hlo hhi,
      signed_vs_unsigned]
    omega
  · rw [AM100.am_Decoder_none, AM100NR.nr_Decoder_none]
    simp [AM100.loop, AM100NR.loop, runLoop, AM100.step, AM100NR.step, jsSlice,
      AMDecoded.setTvoc, AMDecoded.mk.injEq]
    rw [readInt16LE_pair lo hi hlo hhi, readUInt16LE_pair lo hi hlo hhi,
      signed_vs_unsigned]
    omega
  · rw [AM100.am_Decoder_none, AM100NR.nr_Decoder_none]
    simp [AM100.loop, AM100NR.loop, runLoop, AM100.step, AM100NR.step, jsSlice,
      AMDecoded.setPressure, AMDecoded.mk.injEq]
    rw [readInt16LE_pair lo hi hlo hhi, readUInt16LE_pair lo hi hlo hhi, qdiv10_inj,
      signed_vs_unsigned]
    omega

/-- Claim C9, witness: the divergence criterion applied at
`lo = 0, hi = 0x80` (raw value `0x8000`, decoders disagree) and at
`lo = 1, hi = 0` (raw value 1, decoders agree). -/
theorem C9_witness :
    AM100.Decoder [0x05, 0x6A, 0x00, 0x80] none ≠
      AM100NR.Decoder [0x05, 0x6A, 0x00, 0x80] none ∧
    AM100.Decoder [0x09, 0x73, 0x01, 0x00] none =
      AM100NR.Decoder [0x09, 0x73, 0x01, 0x00] none :=
  ⟨C9_signed_unsigned_divergence.1,
   not_not.mp (fun hne =>
     absurd (((C9_signed_unsigned_divergence.2 0x01 0x00 (by decide) (by decide)).2.2.2).mp hne)
       (by decide))⟩

/-- The system (`0xFF`) channel-types the ambience decoders recognise. -/
def amSysTypes : List ℕ := [0x0B, 0x01, 0x08, 0x09, 0x0A, 0x0F, 0x18]

/-- Table form of `AM100.loop_unknown_system`: a `0xFF` header whose
sub-type is not recognised makes the loop stop with `Error := true`. -/
theorem AM100.loop_unknown_system_table (bytes : List ℕ) (fuel i : ℕ) (d : AMDecoded) (ct : ℕ)
    (hlt : i < bytes.length) (hid : bytes[i]? = some 0xFF) (hct : bytes[i+1]? = some ct)
    (hmem : ct ∉ amSysTypes) :
    AM100.loop (fuel+1) bytes i d = d.setError true := by
  apply AM100.loop_unknown_system bytes fuel i d hlt hid
  all_goals
    intro e
    rw [hct] at e
    injection e with e
    subst e
    simp [amSysTypes] at hmem

/-- The system (`0xFF`) channel-types the `0xFF` block of
`EM500-SMT.js` mentions at all (the broken chains handle these; any
other sub-type reaches the final `else` with nothing decoded). -/
def smtSysTypes : List ℕ := [0x01, 0x09, 0x0A, 0x0B, 0x0C, 0x0F, 0x16]

/-- Table form of `EM500SMT.smt_loop_unknown_system`: a `0xFF` header
whose sub-type appears nowhere in the soil decoder's `0xFF` block makes
the loop stop with `Error := true` and nothing decoded.  The truncation
guard passes automatically: a present channel-type byte means at least
two bytes remain. -/
theorem EM500SMT.smt_loop_unknown_system_table (bytes : List ℕ) (fuel i : ℕ) (d : SMTDecoded)
    (ct : ℕ) (hlt : i < bytes.length) (hid : bytes[i]? = some 0xFF)
    (hct : bytes[i+1]? = some ct) (hmem : ct ∉ smtSysTypes) :
    EM500SMT.loop (fuel+1) bytes i d = d.setError true := by
  have hlen : i + 1 < bytes.length := by
    by_contra hc
    rw [List.getElem?_eq_none (by omega)] at hct
    exact absurd hct (by simp)
  apply EM500SMT.smt_loop_unknown_system bytes fuel i d hlt (by omega) hid
  all_goals
    intro e
    rw [hct] at e
    injection e with e
    subst e
    simp [smtSysTypes] at hmem

/-- Claim C10: the error indicator is split across two fields.  In the
ambience and soil decoders any returned result with the lowercase
`error` flag true has the capitalized `Error` flag (initialised false)
still false; in both decoders an unrecognised ordinary pair sets
lowercase `error` and stops; truncation (the soil decoder's
`cursor > length - 2` check) and an unrecognised `0xFF` sub-type set
capitalized `Error` and stop; and the light decoder stops silently
without setting any error field (its result object never has one). -/
theorem C10_error_field_split :
    (∀ (bytes : List ℕ) (port : Option ℕ) (r : AMDecoded),
      AM100.Decoder bytes port = some r → r.error = some true → r.Error = false) ∧
    (∀ (bytes : List ℕ) (port : Option ℕ) (r : SMTDecoded),
      EM500SMT.Decoder bytes port = some r → r.error = some true → r.Error = false) ∧
    (∀ (bytes : List ℕ) (fuel i : ℕ) (d : AMDecoded) (cid ct : ℕ),
      i < bytes.length → bytes[i]? = some cid → bytes[i+1]? = some ct →
      cid ≠ 0xFF → (cid, ct) ∉ amTable →
      AM100.loop (fuel+1) bytes i d = d.setLowerError (some true)) ∧
    (∀ (bytes : List ℕ) (fuel i : ℕ) (d : SMTDecoded) (cid ct : ℕ),
      i < bytes.length → bytes[i]? = some cid → bytes[i+1]? = some ct →
      cid ≠ 0xFF → (cid, ct) ∉ smtTable →
      EM500SMT.loop (fuel+1) bytes i d = d.setLowerError (some true)) ∧
    (∀ (bytes : List ℕ) (fuel i : ℕ) (d : SMTDecoded),
      i < bytes.length → (i : ℤ) > (bytes.length : ℤ) - 2 →
      EM500SMT.loop (fuel+1) bytes i d = d.setError true) ∧
    (∀ (bytes : List ℕ) (fuel i : ℕ) (d : AMDecoded) (ct : ℕ),
      i < bytes.length → bytes[i]? = some 0xFF → bytes[i+1]? = some ct →
      ct ∉ amSysTypes →
      AM100.loop (fuel+1) bytes i d = d.setError true) ∧
    (∀ (bytes : List ℕ) (fuel i : ℕ) (d : SMTDecoded) (ct : ℕ),
      i < bytes.length → bytes[i]? = some 0xFF → bytes[i+1]? = some ct →
      ct ∉ smtSysTypes →
      EM500SMT.loop (fuel+1) bytes i d = d.setError true) ∧
    (∀ (bytes : List ℕ) (fuel i : ℕ) (d : LGTDecoded) (cid ct : ℕ),
      i < bytes.length → bytes[i]? = some cid → bytes[i+1]? = some ct →
      (cid, ct) ∉ lgtTable →
      EM500LGT.loop (fuel+1) bytes i d = d) :=
  ⟨AM100.am_error_flag_split, EM500SMT.smt_error_flag_split, AM100.am_loop_unknown_table,
   EM500SMT.smt_loop_unknown_table, EM500SMT.loop_trunc, AM100.loop_unknown_system_table,
   EM500SMT.smt_loop_unknown_system_table, EM500LGT.lgt_loop_unknown_table⟩

/-- Claim C10, witness: applied at concrete inputs — the unknown
ordinary pair `[0x02, 0x99]` on both ambience and soil (`Error` stays
false while `error` is set), the truncated input `[0x05]` on soil
(`Error` set), the unknown system sub-types `[0xFF, 0x00]` (ambience)
and `[0xFF, 0x02]` (soil) (`Error` set), and `[0x02, 0x99]` on the
light decoder (result unchanged). -/
theorem C10_witness :
    ({ error := some true } : AMDecoded).Error = false ∧
    ({ error := some true } : SMTDecoded).Error = false ∧
    AM100.loop 1 [0x02, 0x99] 0 {} = ({} : AMDecoded).setLowerError (some true) ∧
    EM500SMT.loop 1 [0x02, 0x99] 0 {} = ({} : SMTDecoded).setLowerError (some true) ∧
    EM500SMT.loop 1 [0x05] 0 {} = ({} : SMTDecoded).setError true ∧
    AM100.loop 1 [0xFF, 0x00] 0 {} = ({} : AMDecoded).setError true ∧
    EM500SMT.loop 1 [0xFF, 0x02] 0 {} = ({} : SMTDecoded).setError true ∧
    EM500LGT.loop 1 [0x02, 0x99] 0 {} = ({} : LGTDecoded) :=
  ⟨C10_error_field_split.1 [0x02, 0x99] none { error := some true } (by decide) rfl,
   C10_error_field_split.2.1 [0x02, 0x99] none { error := some true } (by decide) rfl,
   C10_error_field_split.2.2.1 [0x02, 0x99] 0 0 {} 0x02 0x99 (by decide) (by decide)
     (by decide) (by decide) (by decide),
   C10_error_field_split.2.2.2.1 [0x02, 0x99] 0 0 {} 0x02 0x99 (by decide) (by decide)
     (by decide) (by decide) (by decide),
   C10_error_field_split.2.2.2.2.1 [0x05] 0 0 {} (by decide) (by decide),
   C10_error_field_split.2.2.2.2.2.1 [0xFF, 0x00] 0 0 {} 0x00 (by decide) (by decide)
     (by decide) (by decide),
   C10_error_field_split.2.2.2.2.2.2.1 [0xFF, 0x02] 0 0 {} 0x02 (by decide) (by decide)
     (by decide) (by decide),
   C10_error_field_split.2.2.2.2.2.2.2 [0x02, 0x99] 0 0 {} 0x02 0x99 (by decide) (by decide)
     (by decide) (by decide)⟩
